import Mathlib

/-!
# cartographer_ros: the node entry point (`node_main.cc`)

A shallow embedding of `cartographer_ros::Run` and `main`.  The program is a
straight-line driver over collaborators that live outside this file
(`LoadOptions`, `CreateMapBuilder`, the `Node` class, `ros::spin`, glog's
`CHECK`).  Every collaborator is a parameter: a `World` fixes, for each call and
each argument list, whether the callee returns, returns after logging a
failure, or ends the process.  `Run` and `main` are written in a small
trace-recording monad so that each line of the embedding is one statement of the
C++ source.
-/

namespace cartographer_ros

/-! ## Data exchanged with the collaborators -/

/-- Options handed to `CreateMapBuilder`; the declaration is outside this file,
so the content is kept as an identifying tag. -/
structure MapBuilderOptions where
  tag : Nat
deriving DecidableEq

/-- Node-level options as returned by `LoadOptions`; the only field the entry
point reads is `map_builder_options`. -/
structure NodeOptions where
  map_builder_options : MapBuilderOptions
  tag : Nat
deriving DecidableEq

/-- Trajectory-level options as returned by `LoadOptions`. -/
structure TrajectoryOptions where
  tag : Nat
deriving DecidableEq

/-- The map builder handle returned by `CreateMapBuilder` and moved into the
`Node`. -/
structure MapBuilder where
  tag : Nat
deriving DecidableEq

/-- The gflags of `node_main.cc` (lines 25-45), after command-line parsing. -/
structure Flags where
  collect_metrics : Bool
  configuration_directory : String
  configuration_basename : String
  load_state_filename : String
  load_frozen_state : Bool
  start_trajectory_with_default_topics : Bool
  save_state_filename : String
deriving DecidableEq

/-- The values the `DEFINE_*` lines give the flags when the command line does
not set them. -/
def FLAGS_default : Flags :=
  ⟨false, "", "", "", true, true, ""⟩

/-- Failure kinds a collaborator can log or raise (the taxonomy of section 7 of
the specification). -/
inductive Failure where
  | ConfigurationError
  | StateLoadError
  | LifecycleOrderError
  | TrajectoryStartError
  | StateSaveError
deriving DecidableEq

/-- What a call to a collaborator does, as far as the caller can observe. -/
inductive Outcome (α : Type) where
  /-- The callee completes and hands back `v`. -/
  | returns (v : α)
  /-- The callee logs failure `f` and still returns `v` to the caller. -/
  | reports (f : Failure) (v : α)
  /-- The callee raises `f` fatally (a failed `CHECK`, `LOG(FATAL)` or an
  exception nobody catches): control never comes back and the process ends. -/
  | aborts (f : Failure)
deriving DecidableEq

/-- Everything observable that the process does, in program order. -/
inductive Event where
  | InitGoogleLogging
  | ParseCommandLineFlags
  | CheckFailed (message : String)
  | ros_init (name : String)
  | ros_start
  | ScopedRosLogSink
  | tf_buffer (cache_time_in_seconds : Nat)
  | TransformListener
  | LoadOptions (configuration_directory configuration_basename : String)
  | CreateMapBuilder (options : MapBuilderOptions)
  | Node (node_options : NodeOptions) (map_builder : MapBuilder) (collect_metrics : Bool)
  | LoadState (filename : String) (load_frozen_state : Bool)
  | StartTrajectoryWithDefaultTopics (options : TrajectoryOptions)
  | spin
  | FinishAllTrajectories
  | RunFinalOptimization
  | SerializeState (filename : String) (include_unfinished_submaps : Bool)
  | ros_shutdown
  /-- A collaborator logged failure `f` and returned. -/
  | Reported (f : Failure)
  /-- A collaborator raised failure `f` and ended the process. -/
  | Fatal (f : Failure)
deriving DecidableEq

/-- The collaborators of `Run`: for each call, what it does on given
arguments.  `Run` issues each call at most once, so an outcome that depends on
the arguments only loses no generality over one that depends on the history. -/
structure World where
  LoadOptions : String → String → Outcome (NodeOptions × TrajectoryOptions)
  CreateMapBuilder : MapBuilderOptions → Outcome MapBuilder
  Node : NodeOptions → MapBuilder → Bool → Outcome Unit
  LoadState : String → Bool → Outcome Unit
  StartTrajectoryWithDefaultTopics : TrajectoryOptions → Outcome Unit
  spin : Outcome Unit
  FinishAllTrajectories : Outcome Unit
  RunFinalOptimization : Outcome Unit
  SerializeState : String → Bool → Outcome Unit

/-! ## The trace-recording monad -/

/-- A (piece of a) process run: the events it produced and, when control came
back to the caller, the value it produced. `value = none` means the process
ended inside this piece. -/
structure Proc (α : Type) where
  trace : List Event
  value : Option α
deriving DecidableEq

/-- Returning a value produces no event. -/
def Proc.pure {α : Type} (a : α) : Proc α :=
  ⟨[], some a⟩

/-- Sequencing: the second piece runs only if the first gave control back. -/
def Proc.bind {α β : Type} (m : Proc α) (f : α → Proc β) : Proc β :=
  match m.value with
  | some a => ⟨m.trace ++ (f a).trace, (f a).value⟩
  | none => ⟨m.trace, none⟩

instance : Monad Proc where
  pure := Proc.pure
  bind := Proc.bind

/-- The value a call hands back, if it hands control back at all. -/
def Outcome.value {α : Type} : Outcome α → Option α
  | .returns v => some v
  | .reports _ v => some v
  | .aborts _ => none

/-- What a callee writes to the trace besides the call itself. -/
def Outcome.log {α : Type} : Outcome α → List Event
  | .returns _ => []
  | .reports f _ => [Event.Reported f]
  | .aborts f => [Event.Fatal f]

/-- A call to a collaborator: the call is recorded, then the callee's outcome. -/
def call {α : Type} (e : Event) (o : Outcome α) : Proc α :=
  ⟨e :: o.log, o.value⟩

/-- A call into the logging, flag-parsing or middleware set-up layer; these are
taken to return (section 1 of the specification puts them out of scope as
correct subsystems). -/
def step (e : Event) : Proc Unit :=
  ⟨[e], some ()⟩

/-- The glog macro `CHECK(condition) << message`: a false condition logs the
message at fatal severity and ends the process. -/
def CHECK (condition : Bool) (message : String) : Proc Unit :=
  if condition then ⟨[], some ()⟩ else ⟨[Event.CheckFailed message], none⟩

/-! ## The collaborator calls, as `Run` writes them -/

/-- The call `LoadOptions(configuration_directory, configuration_basename)`. -/
def LoadOptions (w : World) (configuration_directory configuration_basename : String) :
    Proc (NodeOptions × TrajectoryOptions) :=
  call (Event.LoadOptions configuration_directory configuration_basename)
    (w.LoadOptions configuration_directory configuration_basename)

/-- The call `cartographer::mapping::CreateMapBuilder(options)`. -/
def CreateMapBuilder (w : World) (options : MapBuilderOptions) : Proc MapBuilder :=
  call (Event.CreateMapBuilder options) (w.CreateMapBuilder options)

/-- The constructor `Node node(node_options, std::move(map_builder), &tf_buffer,
collect_metrics)`; the pointer to the transform buffer constructed two lines
earlier is not recorded. -/
def Node (w : World) (node_options : NodeOptions) (map_builder : MapBuilder)
    (collect_metrics : Bool) : Proc Unit :=
  call (Event.Node node_options map_builder collect_metrics)
    (w.Node node_options map_builder collect_metrics)

/-- The call `node.LoadState(filename, load_frozen_state)`. -/
def Node.LoadState (w : World) (filename : String) (load_frozen_state : Bool) : Proc Unit :=
  call (Event.LoadState filename load_frozen_state) (w.LoadState filename load_frozen_state)

/-- The call `node.StartTrajectoryWithDefaultTopics(options)`. -/
def Node.StartTrajectoryWithDefaultTopics (w : World) (options : TrajectoryOptions) :
    Proc Unit :=
  call (Event.StartTrajectoryWithDefaultTopics options)
    (w.StartTrajectoryWithDefaultTopics options)

/-- The call `::ros::spin()`: it returns when the node is told to stop. -/
def ros.spin (w : World) : Proc Unit :=
  call Event.spin w.spin

/-- The call `node.FinishAllTrajectories()`. -/
def Node.FinishAllTrajectories (w : World) : Proc Unit :=
  call Event.FinishAllTrajectories w.FinishAllTrajectories

/-- The call `node.RunFinalOptimization()`. -/
def Node.RunFinalOptimization (w : World) : Proc Unit :=
  call Event.RunFinalOptimization w.RunFinalOptimization

/-- The call `node.SerializeState(filename, include_unfinished_submaps)`; its
result, if any, is discarded by the caller. -/
def Node.SerializeState (w : World) (filename : String) (include_unfinished_submaps : Bool) :
    Proc Unit :=
  call (Event.SerializeState filename include_unfinished_submaps)
    (w.SerializeState filename include_unfinished_submaps)

/-! ## `Run` and `main` -/

/-- The constant `kTfBufferCacheTimeInSeconds = 10.` of `Run`. -/
def kTfBufferCacheTimeInSeconds : Nat := 10

/-- The function `cartographer_ros::Run` (node_main.cc, lines 51-86). -/
def Run (FLAGS : Flags) (w : World) : Proc Unit := do
  step (Event.tf_buffer kTfBufferCacheTimeInSeconds)
  step Event.TransformListener
  let (node_options, trajectory_options) ←
    LoadOptions w FLAGS.configuration_directory FLAGS.configuration_basename
  let map_builder ← CreateMapBuilder w node_options.map_builder_options
  Node w node_options map_builder FLAGS.collect_metrics
  if !FLAGS.load_state_filename.isEmpty then
    Node.LoadState w FLAGS.load_state_filename FLAGS.load_frozen_state
  if FLAGS.start_trajectory_with_default_topics then
    Node.StartTrajectoryWithDefaultTopics w trajectory_options
  ros.spin w
  Node.FinishAllTrajectories w
  Node.RunFinalOptimization w
  if !FLAGS.save_state_filename.isEmpty then
    Node.SerializeState w FLAGS.save_state_filename true

/-- The statements of `main` (node_main.cc, lines 92-107), with the flags as
`ParseCommandLineFlags` left them. -/
def main_body (FLAGS : Flags) (w : World) : Proc Unit := do
  step Event.InitGoogleLogging
  step Event.ParseCommandLineFlags
  CHECK (!FLAGS.configuration_directory.isEmpty) "-configuration_directory is missing."
  CHECK (!FLAGS.configuration_basename.isEmpty) "-configuration_basename is missing."
  step (Event.ros_init "cartographer_node")
  step Event.ros_start
  step Event.ScopedRosLogSink
  Run FLAGS w
  step Event.ros_shutdown

/-- How the process ended. -/
inductive ExitStatus where
  /-- The function `main` returned; the exit code is its return value. -/
  | exited (code : Nat)
  /-- The process was ended from inside a call (glog's fatal path calls
  `abort`); the wait status the parent sees is not zero. -/
  | aborted
deriving DecidableEq

/-- A whole process run. -/
structure Execution where
  trace : List Event
  status : ExitStatus
deriving DecidableEq

/-- The process started at `main`: falling off the end of `main` is exit
code 0. -/
def main (FLAGS : Flags) (w : World) : Execution :=
  match (main_body FLAGS w).value with
  | some _ => ⟨(main_body FLAGS w).trace, ExitStatus.exited 0⟩
  | none => ⟨(main_body FLAGS w).trace, ExitStatus.aborted⟩

/-! ## Reading a trace -/

/-- Whether an event is a call the program issues, as opposed to a note that a
callee or `CHECK` leaves about a failure. -/
def Event.isCall : Event → Bool
  | .CheckFailed _ => false
  | .Reported _ => false
  | .Fatal _ => false
  | _ => true

/-- The calls of a trace, in the order they were issued. -/
def calls (t : List Event) : List Event :=
  t.filter Event.isCall

/-- A failed `CHECK`. -/
def Event.isCheckFailed : Event → Bool
  | .CheckFailed _ => true
  | _ => false

/-- A call of `LoadOptions`. -/
def Event.isLoadOptions : Event → Bool
  | .LoadOptions _ _ => true
  | _ => false

/-- A call of `CreateMapBuilder`. -/
def Event.isCreateMapBuilder : Event → Bool
  | .CreateMapBuilder _ => true
  | _ => false

/-- The construction of the `Node` object. -/
def Event.isNode : Event → Bool
  | .Node _ _ _ => true
  | _ => false

/-- A call of `Node::LoadState`. -/
def Event.isLoadState : Event → Bool
  | .LoadState _ _ => true
  | _ => false

/-- A call of `Node::StartTrajectoryWithDefaultTopics`. -/
def Event.isStartTrajectory : Event → Bool
  | .StartTrajectoryWithDefaultTopics _ => true
  | _ => false

/-- The call of `ros::spin`. -/
def Event.isSpin : Event → Bool
  | .spin => true
  | _ => false

/-- A call of `Node::FinishAllTrajectories`. -/
def Event.isFinishAllTrajectories : Event → Bool
  | .FinishAllTrajectories => true
  | _ => false

/-- A call of `Node::RunFinalOptimization`. -/
def Event.isRunFinalOptimization : Event → Bool
  | .RunFinalOptimization => true
  | _ => false

/-- A call of `Node::SerializeState`. -/
def Event.isSerializeState : Event → Bool
  | .SerializeState _ _ => true
  | _ => false

/-- The three operations of the shutdown sequence. -/
def Event.isShutdownOp (e : Event) : Bool :=
  e.isFinishAllTrajectories || e.isRunFinalOptimization || e.isSerializeState

/-- The member functions called on the constructed `Node`. -/
def Event.isLifecycleOp (e : Event) : Bool :=
  e.isLoadState || e.isStartTrajectory || e.isShutdownOp

/-- Every operation on the `Node`, its construction included. -/
def Event.onNode (e : Event) : Bool :=
  e.isNode || e.isLifecycleOp

/-- The events of `t` that come before the first event satisfying `p` (all of
`t` when there is none). -/
def before (p : Event → Bool) (t : List Event) : List Event :=
  t.takeWhile (fun e => !p e)

/-- The events of `t` that come after the first event satisfying `p` (none
when there is none). -/
def after (p : Event → Bool) (t : List Event) : List Event :=
  (t.dropWhile (fun e => !p e)).tail

/-! ## Conditions on the collaborators -/

/-- No collaborator call fails: every call completes and logs no failure. -/
def World.NoFailure (w : World) : Prop :=
  (∀ d b, ∃ v, w.LoadOptions d b = Outcome.returns v) ∧
  (∀ o, ∃ mb, w.CreateMapBuilder o = Outcome.returns mb) ∧
  (∀ o mb c, w.Node o mb c = Outcome.returns ()) ∧
  (∀ f b, w.LoadState f b = Outcome.returns ()) ∧
  (∀ o, w.StartTrajectoryWithDefaultTopics o = Outcome.returns ()) ∧
  w.spin = Outcome.returns () ∧
  w.FinishAllTrajectories = Outcome.returns () ∧
  w.RunFinalOptimization = Outcome.returns () ∧
  (∀ f b, w.SerializeState f b = Outcome.returns ())

/-- Every collaborator call hands control back (it may have logged a
failure). -/
def World.Returns (w : World) : Prop :=
  (∀ d b, ∃ v, (w.LoadOptions d b).value = some v) ∧
  (∀ o, ∃ mb, (w.CreateMapBuilder o).value = some mb) ∧
  (∀ o mb c, (w.Node o mb c).value = some ()) ∧
  (∀ f b, (w.LoadState f b).value = some ()) ∧
  (∀ o, (w.StartTrajectoryWithDefaultTopics o).value = some ()) ∧
  w.spin.value = some () ∧
  w.FinishAllTrajectories.value = some () ∧
  w.RunFinalOptimization.value = some () ∧
  (∀ f b, (w.SerializeState f b).value = some ())

/-- Modelled from the spec: `LoadOptions` is defined in node_options.cc, which
is not among the sources.  Section 7 makes a `ConfigurationError` "fatal,
aborts before engine construction": a failing loader ends the process instead
of returning to `Run`. -/
def LoadOptions_failure : Outcome (NodeOptions × TrajectoryOptions) :=
  Outcome.aborts Failure.ConfigurationError

/-- Modelled from the spec: `Node::LoadState` is defined in node.cc, which is
not among the sources.  Sections 4.3 and 7 make a `StateLoadError` fatal
("aborts before any trajectory starts"): a failing load ends the process
instead of returning to `Run`. -/
def LoadState_failure : Outcome Unit :=
  Outcome.aborts Failure.StateLoadError

/-- Modelled from the spec: `Node::SerializeState` is defined in node.cc, which
is not among the sources.  Section 7 has a `StateSaveError` "reported, logged,
process still exits cleanly": a failing save logs the failure and returns to
`Run`. -/
def SerializeState_failure : Outcome Unit :=
  Outcome.reports Failure.StateSaveError ()

/-! ## The Node Controller of the specification -/

/-- The lifecycle operations of the Node Controller (specification, section
4.2). -/
inductive NodeOp where
  | Construct
  | LoadState
  | StartTrajectory
  | FinishAllTrajectories
  | RunFinalOptimization
  | SerializeState
deriving DecidableEq

/-- The Node Controller operation an event of the program stands for. -/
def Event.nodeOp : Event → Option NodeOp
  | .Node _ _ _ => some NodeOp.Construct
  | .LoadState _ _ => some NodeOp.LoadState
  | .StartTrajectoryWithDefaultTopics _ => some NodeOp.StartTrajectory
  | .FinishAllTrajectories => some NodeOp.FinishAllTrajectories
  | .RunFinalOptimization => some NodeOp.RunFinalOptimization
  | .SerializeState _ _ => some NodeOp.SerializeState
  | _ => none

/-- The Node Controller operations of a trace, in order. -/
def nodeOps (t : List Event) : List NodeOp :=
  t.filterMap Event.nodeOp

/-- The states of the state machine of section 4.2, with the state before
`Construct` added in front. -/
inductive Phase where
  | Unconstructed
  | Constructed
  | StateLoaded
  | TrajectoriesActive
  | Finished
  | Optimized
  | Saved
deriving DecidableEq

/-- The state machine of the specification, in its words:
`Constructed → [LoadState]? → (StartTrajectory)* → FinishAllTrajectories →
RunFinalOptimization → [SerializeState]? → Destroyed`.  An operation the
machine has no transition for is a `LifecycleOrderError`. -/
def lifecycle : Phase → NodeOp → Except Failure Phase
  | .Unconstructed, .Construct => .ok .Constructed
  | .Constructed, .LoadState => .ok .StateLoaded
  | .Constructed, .StartTrajectory => .ok .TrajectoriesActive
  | .StateLoaded, .StartTrajectory => .ok .TrajectoriesActive
  | .TrajectoriesActive, .StartTrajectory => .ok .TrajectoriesActive
  | .Constructed, .FinishAllTrajectories => .ok .Finished
  | .StateLoaded, .FinishAllTrajectories => .ok .Finished
  | .TrajectoriesActive, .FinishAllTrajectories => .ok .Finished
  | .Finished, .RunFinalOptimization => .ok .Optimized
  | .Optimized, .SerializeState => .ok .Saved
  | _, _ => .error Failure.LifecycleOrderError

/-- Running the state machine over a sequence of operations. -/
def lifecycleRun : Phase → List NodeOp → Except Failure Phase
  | p, [] => .ok p
  | p, op :: ops =>
    match lifecycle p op with
    | .ok q => lifecycleRun q ops
    | .error f => .error f

/-- The states from which the machine may go to `Destroyed`: the sequence read
so far is a whole word. -/
def Phase.isFinal : Phase → Bool
  | .Optimized => true
  | .Saved => true
  | _ => false

/-- Modelled from the spec: the `Node` class (node.h, node.cc) is not among the
sources.  This is the Node Controller state of section 3 as far as the
trajectories go: the lifecycle state, the set of active trajectory ids, and
the next id to hand out. -/
structure NodeController where
  phase : Phase
  TrajectoriesActive : List Nat
  next_trajectory_id : Nat
deriving DecidableEq

/-- Modelled from the spec: the effect of one Node Controller operation that
succeeds (section 4.2).  `StartTrajectory` "allocates a new trajectory ID" and
the trajectory becomes active; `FinishAllTrajectories` leaves no trajectory
active; the other operations do not touch the set.  An operation out of order
is a `LifecycleOrderError`. -/
def NodeController.apply (nc : NodeController) (op : NodeOp) : Except Failure NodeController :=
  match lifecycle nc.phase op with
  | .error f => .error f
  | .ok q =>
    match op with
    | .Construct => .ok ⟨q, [], 0⟩
    | .StartTrajectory =>
      .ok ⟨q, nc.next_trajectory_id :: nc.TrajectoriesActive, nc.next_trajectory_id + 1⟩
    | .FinishAllTrajectories => .ok ⟨q, [], nc.next_trajectory_id⟩
    | _ => .ok ⟨q, nc.TrajectoriesActive, nc.next_trajectory_id⟩

/-- Modelled from the spec: the Node Controller after a sequence of successful
operations. -/
def NodeController.run : NodeController → List NodeOp → Except Failure NodeController
  | nc, [] => .ok nc
  | nc, op :: ops =>
    match nc.apply op with
    | .ok nc2 => nc2.run ops
    | .error f => .error f

/-- Modelled from the spec: the controller before `Construct`. -/
def NodeController.unconstructed : NodeController :=
  ⟨Phase.Unconstructed, [], 0⟩

/-! ## The three tails of `Run`

`Run` is one block; to reason about it, the tail that starts at each guarded
call gets a name.  `Run_eq` below shows that `Run` is these pieces put
together. -/

/-- Lines 75-85 of `Run`: the wait and everything after it. -/
def Run_from_spin (FLAGS : Flags) (w : World) : Proc Unit := do
  ros.spin w
  Node.FinishAllTrajectories w
  Node.RunFinalOptimization w
  if !FLAGS.save_state_filename.isEmpty then
    Node.SerializeState w FLAGS.save_state_filename true

/-- Lines 71-85 of `Run`. -/
def Run_from_start (FLAGS : Flags) (w : World) (trajectory_options : TrajectoryOptions) :
    Proc Unit := do
  if FLAGS.start_trajectory_with_default_topics then
    Node.StartTrajectoryWithDefaultTopics w trajectory_options
  Run_from_spin FLAGS w

/-- Lines 67-85 of `Run`. -/
def Run_from_load (FLAGS : Flags) (w : World) (trajectory_options : TrajectoryOptions) :
    Proc Unit := do
  if !FLAGS.load_state_filename.isEmpty then
    Node.LoadState w FLAGS.load_state_filename FLAGS.load_frozen_state
  Run_from_start FLAGS w trajectory_options

/-- The calls of lines 75-85 when nothing ends the process. -/
def script_from_spin (FLAGS : Flags) : List Event :=
  [Event.spin, Event.FinishAllTrajectories, Event.RunFinalOptimization] ++
    (if !FLAGS.save_state_filename.isEmpty then
      [Event.SerializeState FLAGS.save_state_filename true] else [])

/-- The calls of lines 71-85 when nothing ends the process. -/
def script_from_start (FLAGS : Flags) (trajectory_options : TrajectoryOptions) : List Event :=
  (if FLAGS.start_trajectory_with_default_topics then
      [Event.StartTrajectoryWithDefaultTopics trajectory_options] else []) ++
    script_from_spin FLAGS

/-- The calls of lines 67-85 when nothing ends the process. -/
def script_from_load (FLAGS : Flags) (trajectory_options : TrajectoryOptions) : List Event :=
  (if !FLAGS.load_state_filename.isEmpty then
      [Event.LoadState FLAGS.load_state_filename FLAGS.load_frozen_state] else []) ++
    script_from_start FLAGS trajectory_options

/-- The calls up to the construction of the `Node`. -/
def script_construction (FLAGS : Flags) (node_options : NodeOptions)
    (map_builder : MapBuilder) : List Event :=
  [Event.tf_buffer kTfBufferCacheTimeInSeconds, Event.TransformListener,
    Event.LoadOptions FLAGS.configuration_directory FLAGS.configuration_basename,
    Event.CreateMapBuilder node_options.map_builder_options,
    Event.Node node_options map_builder FLAGS.collect_metrics]

/-- The calls of `Run` when nothing ends the process and the collaborators
return the given values. -/
def script (FLAGS : Flags) (node_options : NodeOptions) (trajectory_options : TrajectoryOptions)
    (map_builder : MapBuilder) : List Event :=
  script_construction FLAGS node_options map_builder ++ script_from_load FLAGS trajectory_options

/-- The calls of `main` before it enters `Run`, when both checks pass. -/
def main_entry : List Event :=
  [Event.InitGoogleLogging, Event.ParseCommandLineFlags, Event.ros_init "cartographer_node",
    Event.ros_start, Event.ScopedRosLogSink]

/-! ## Inputs to run the program on -/

/-- A command line that names a configuration and a file to save to. -/
def flags_save : Flags :=
  ⟨false, "cfg", "backpack_2d.lua", "", true, true, "out.pbstream"⟩

/-- A command line that also names a state to load. -/
def flags_load : Flags :=
  ⟨false, "cfg", "backpack_2d.lua", "in.pbstream", true, true, ""⟩

/-- A command line that turns the automatic first trajectory off. -/
def flags_idle : Flags :=
  ⟨true, "cfg", "backpack_2d.lua", "", true, false, ""⟩

/-- Collaborators that all succeed. -/
def world_ok : World where
  LoadOptions := fun _ _ => Outcome.returns (⟨⟨1⟩, 2⟩, ⟨3⟩)
  CreateMapBuilder := fun o => Outcome.returns ⟨o.tag + 10⟩
  Node := fun _ _ _ => Outcome.returns ()
  LoadState := fun _ _ => Outcome.returns ()
  StartTrajectoryWithDefaultTopics := fun _ => Outcome.returns ()
  spin := Outcome.returns ()
  FinishAllTrajectories := Outcome.returns ()
  RunFinalOptimization := Outcome.returns ()
  SerializeState := fun _ _ => Outcome.returns ()

/-- Collaborators among which the configuration loader fails. -/
def world_bad_configuration : World where
  LoadOptions := fun _ _ => LoadOptions_failure
  CreateMapBuilder := fun o => Outcome.returns ⟨o.tag + 10⟩
  Node := fun _ _ _ => Outcome.returns ()
  LoadState := fun _ _ => Outcome.returns ()
  StartTrajectoryWithDefaultTopics := fun _ => Outcome.returns ()
  spin := Outcome.returns ()
  FinishAllTrajectories := Outcome.returns ()
  RunFinalOptimization := Outcome.returns ()
  SerializeState := fun _ _ => Outcome.returns ()

/-- Collaborators among which loading the saved state fails. -/
def world_bad_state : World where
  LoadOptions := fun _ _ => Outcome.returns (⟨⟨1⟩, 2⟩, ⟨3⟩)
  CreateMapBuilder := fun o => Outcome.returns ⟨o.tag + 10⟩
  Node := fun _ _ _ => Outcome.returns ()
  LoadState := fun _ _ => LoadState_failure
  StartTrajectoryWithDefaultTopics := fun _ => Outcome.returns ()
  spin := Outcome.returns ()
  FinishAllTrajectories := Outcome.returns ()
  RunFinalOptimization := Outcome.returns ()
  SerializeState := fun _ _ => Outcome.returns ()

/-- Collaborators among which writing the state fails. -/
def world_bad_save : World where
  LoadOptions := fun _ _ => Outcome.returns (⟨⟨1⟩, 2⟩, ⟨3⟩)
  CreateMapBuilder := fun o => Outcome.returns ⟨o.tag + 10⟩
  Node := fun _ _ _ => Outcome.returns ()
  LoadState := fun _ _ => Outcome.returns ()
  StartTrajectoryWithDefaultTopics := fun _ => Outcome.returns ()
  spin := Outcome.returns ()
  FinishAllTrajectories := Outcome.returns ()
  RunFinalOptimization := Outcome.returns ()
  SerializeState := fun _ _ => SerializeState_failure

/-! ## Basic facts about the monad and about traces -/

theorem Run_eq (FLAGS : Flags) (w : World) :
    Run FLAGS w = (do
      step (Event.tf_buffer kTfBufferCacheTimeInSeconds)
      step Event.TransformListener
      let (node_options, trajectory_options) ←
        LoadOptions w FLAGS.configuration_directory FLAGS.configuration_basename
      let map_builder ← CreateMapBuilder w node_options.map_builder_options
      Node w node_options map_builder FLAGS.collect_metrics
      Run_from_load FLAGS w trajectory_options) := rfl

theorem Proc.trace_bind {α β : Type} (m : Proc α) (f : α → Proc β) :
    (m >>= f).trace = m.trace ++ (match m.value with | some a => (f a).trace | none => []) := by
  show (Proc.bind m f).trace = _
  unfold Proc.bind
  cases h : m.value <;> simp

theorem Proc.value_bind {α β : Type} (m : Proc α) (f : α → Proc β) :
    (m >>= f).value = (match m.value with | some a => (f a).value | none => none) := by
  show (Proc.bind m f).value = _
  unfold Proc.bind
  cases h : m.value <;> simp

theorem Proc.trace_unit : (Pure.pure PUnit.unit : Proc Unit).trace = [] := rfl

theorem Proc.value_unit : (Pure.pure PUnit.unit : Proc Unit).value = some () := rfl

theorem calls_append (s t : List Event) : calls (s ++ t) = calls s ++ calls t := by
  simp [calls]

theorem calls_nil : calls [] = [] := rfl

theorem calls_log {α : Type} (o : Outcome α) : calls o.log = [] := by
  cases o <;> rfl

theorem calls_cons (e : Event) (t : List Event) :
    calls (e :: t) = if e.isCall then e :: calls t else calls t := by
  simp [calls, List.filter_cons]

/-! ## The calls of `Run` are an initial segment of the script -/

theorem from_spin_calls (FLAGS : Flags) (w : World) :
    ∃ rest, calls (Run_from_spin FLAGS w).trace ++ rest = script_from_spin FLAGS
      ∧ ((Run_from_spin FLAGS w).value = none ∨ rest = []) := by
  refine ⟨(script_from_spin FLAGS).drop (calls (Run_from_spin FLAGS w).trace).length, ?_⟩
  simp only [Run_from_spin, script_from_spin, Proc.trace_bind, Proc.value_bind, ros.spin,
    Node.FinishAllTrajectories, Node.RunFinalOptimization, Node.SerializeState, call]
  cases hv : FLAGS.save_state_filename.isEmpty <;>
  rcases h6 : w.spin.value with _ | _ <;>
  rcases h7 : w.FinishAllTrajectories.value with _ | _ <;>
  rcases h8 : w.RunFinalOptimization.value with _ | _ <;>
  simp [calls_append, calls_cons, calls_log, Event.isCall, Proc.trace_unit, Proc.value_unit,
    calls_nil]

theorem from_start_calls (FLAGS : Flags) (w : World) (topts : TrajectoryOptions) :
    ∃ rest, calls (Run_from_start FLAGS w topts).trace ++ rest = script_from_start FLAGS topts
      ∧ ((Run_from_start FLAGS w topts).value = none ∨ rest = []) := by
  obtain ⟨rest, h1, h2⟩ := from_spin_calls FLAGS w
  cases hs : FLAGS.start_trajectory_with_default_topics
  · refine ⟨rest, ?_⟩
    simpa [Run_from_start, script_from_start, hs, Proc.trace_bind, Proc.value_bind,
      Proc.trace_unit, Proc.value_unit] using ⟨h1, h2⟩
  · rcases h5 : (w.StartTrajectoryWithDefaultTopics topts).value with _ | _
    · refine ⟨script_from_spin FLAGS, ?_⟩
      simp [Run_from_start, script_from_start, hs, h5, Proc.trace_bind, Proc.value_bind,
        Node.StartTrajectoryWithDefaultTopics, call, calls_append, calls_cons, calls_log,
        Event.isCall, calls_nil]
    · refine ⟨rest, ?_⟩
      simpa [Run_from_start, script_from_start, hs, h5, Proc.trace_bind, Proc.value_bind,
        Node.StartTrajectoryWithDefaultTopics, call, calls_append, calls_cons, calls_log,
        Event.isCall, calls_nil] using ⟨h1, h2⟩

theorem from_load_calls (FLAGS : Flags) (w : World) (topts : TrajectoryOptions) :
    ∃ rest, calls (Run_from_load FLAGS w topts).trace ++ rest = script_from_load FLAGS topts
      ∧ ((Run_from_load FLAGS w topts).value = none ∨ rest = []) := by
  obtain ⟨rest, h1, h2⟩ := from_start_calls FLAGS w topts
  cases hs : FLAGS.load_state_filename.isEmpty
  · rcases h5 : (w.LoadState FLAGS.load_state_filename FLAGS.load_frozen_state).value with _ | _
    · refine ⟨script_from_start FLAGS topts, ?_⟩
      simp [Run_from_load, script_from_load, hs, h5, Proc.trace_bind, Proc.value_bind,
        Node.LoadState, call, calls_append, calls_cons, calls_log, Event.isCall, calls_nil]
    · refine ⟨rest, ?_⟩
      simpa [Run_from_load, script_from_load, hs, h5, Proc.trace_bind, Proc.value_bind,
        Node.LoadState, call, calls_append, calls_cons, calls_log, Event.isCall,
        calls_nil] using ⟨h1, h2⟩
  · refine ⟨rest, ?_⟩
    simpa [Run_from_load, script_from_load, hs, Proc.trace_bind, Proc.value_bind,
      Proc.trace_unit, Proc.value_unit] using ⟨h1, h2⟩

/-- The trace of `Run` once the configuration is loaded, the map builder is
created and the `Node` is constructed. -/
theorem Run_constructed (FLAGS : Flags) (w : World) (no : NodeOptions) (topts : TrajectoryOptions)
    (mb : MapBuilder)
    (h1 : (w.LoadOptions FLAGS.configuration_directory FLAGS.configuration_basename).value
      = some (no, topts))
    (h2 : (w.CreateMapBuilder no.map_builder_options).value = some mb)
    (h3 : (w.Node no mb FLAGS.collect_metrics).value = some ()) :
    calls (Run FLAGS w).trace
        = script_construction FLAGS no mb ++ calls (Run_from_load FLAGS w topts).trace
      ∧ (Run FLAGS w).value = (Run_from_load FLAGS w topts).value := by
  simp [Run_eq, script_construction, Proc.trace_bind, Proc.value_bind, step, LoadOptions,
    CreateMapBuilder, Node, call, h1, h2, h3, calls_append, calls_cons, calls_log, Event.isCall,
    calls_nil]

/-- Every run of `Run` issues an initial segment of the script; the whole
script when it returns. -/
theorem Run_calls (FLAGS : Flags) (w : World) :
    ∃ no topts mb rest,
      calls (Run FLAGS w).trace ++ rest = script FLAGS no topts mb
      ∧ ((Run FLAGS w).value = none ∨ rest = [])
      ∧ ((w.LoadOptions FLAGS.configuration_directory FLAGS.configuration_basename).value
            = some (no, topts)
          ∨ calls (Run FLAGS w).trace
            = [Event.tf_buffer kTfBufferCacheTimeInSeconds, Event.TransformListener,
                Event.LoadOptions FLAGS.configuration_directory FLAGS.configuration_basename]) := by
  rcases h1 : (w.LoadOptions FLAGS.configuration_directory FLAGS.configuration_basename).value
    with _ | ⟨no, topts⟩
  · refine ⟨⟨⟨0⟩, 0⟩, ⟨0⟩, ⟨0⟩, [Event.CreateMapBuilder ⟨0⟩, Event.Node ⟨⟨0⟩, 0⟩ ⟨0⟩
      FLAGS.collect_metrics] ++ script_from_load FLAGS ⟨0⟩, ?_⟩
    simp [Run_eq, script, script_construction, Proc.trace_bind, Proc.value_bind, step,
      LoadOptions, call, h1, calls_append, calls_cons, calls_log, Event.isCall, calls_nil]
  rcases h2 : (w.CreateMapBuilder no.map_builder_options).value with _ | mb
  · refine ⟨no, topts, ⟨0⟩, [Event.Node no ⟨0⟩ FLAGS.collect_metrics]
      ++ script_from_load FLAGS topts, ?_⟩
    simp [Run_eq, script, script_construction, Proc.trace_bind, Proc.value_bind, step,
      LoadOptions, CreateMapBuilder, call, h1, h2, calls_append, calls_cons, calls_log,
      Event.isCall, calls_nil]
  rcases h3 : (w.Node no mb FLAGS.collect_metrics).value with _ | _
  · refine ⟨no, topts, mb, script_from_load FLAGS topts, ?_⟩
    simp [Run_eq, script, script_construction, Proc.trace_bind, Proc.value_bind, step,
      LoadOptions, CreateMapBuilder, Node, call, h1, h2, h3, calls_append, calls_cons, calls_log,
      Event.isCall, calls_nil]
  · obtain ⟨rest, h4, h5⟩ := from_load_calls FLAGS w topts
    obtain ⟨h6, h7⟩ := Run_constructed FLAGS w no topts mb h1 h2 h3
    refine ⟨no, topts, mb, rest, ?_, ?_, Or.inl rfl⟩
    · rw [h6, script, List.append_assoc, h4]
    · rw [h7]; exact h5

/-! ## Properties that pass from a list to its initial segments -/

theorem countP_le_of_append (p : Event → Bool) (l r s : List Event) (h : l ++ r = s) :
    l.countP p ≤ s.countP p := by
  rw [← h, List.countP_append]
  exact Nat.le_add_right _ _

theorem filter_nil_of_append (p : Event → Bool) (l r s : List Event) (h : l ++ r = s)
    (hs : s.filter p = []) : l.filter p = [] := by
  rw [← h, List.filter_append] at hs
  exact (List.append_eq_nil.mp hs).1

theorem before_all_of_append (p g : Event → Bool) (l r : List Event)
    (h : (before p (l ++ r)).all g = true) : (before p l).all g = true := by
  induction l with
  | nil => simp [before]
  | cons a l ih =>
    cases hp : p a
    · simp only [before, List.cons_append, List.takeWhile_cons, hp, Bool.not_false, if_true,
        List.all_cons, Bool.and_eq_true] at h ⊢
      exact ⟨h.1, ih h.2⟩
    · simp [before, List.takeWhile_cons, hp]

theorem after_all_of_append (p g : Event → Bool) (l r : List Event)
    (h : (after p (l ++ r)).all g = true) : (after p l).all g = true := by
  induction l with
  | nil => simp [after]
  | cons a l ih =>
    cases hp : p a
    · simp only [after, List.cons_append, List.dropWhile_cons, hp, Bool.not_false, if_true] at h ⊢
      exact ih h
    · simp only [after, List.cons_append, List.dropWhile_cons, hp, Bool.not_true,
        Bool.false_eq_true, if_false, List.tail_cons, List.all_append, Bool.and_eq_true] at h ⊢
      exact h.1

theorem lifecycleRun_append (p : Phase) (l r : List NodeOp) (q : Phase)
    (h : lifecycleRun p (l ++ r) = .ok q) : ∃ q2, lifecycleRun p l = .ok q2 := by
  induction l generalizing p with
  | nil => exact ⟨p, rfl⟩
  | cons a l ih =>
    simp only [List.cons_append, lifecycleRun] at h ⊢
    cases hl : lifecycle p a with
    | error f => simp [hl] at h
    | ok p2 =>
      simp only [hl] at h ⊢
      exact ih p2 h

theorem nodeOps_calls (t : List Event) : nodeOps (calls t) = nodeOps t := by
  induction t with
  | nil => rfl
  | cons a t ih =>
    cases a <;> simp_all [nodeOps, calls, Event.isCall, Event.nodeOp, List.filterMap_cons]

theorem mem_calls (e : Event) (t : List Event) (h : e ∈ t) (hc : e.isCall = true) :
    e ∈ calls t := by
  simp [calls, List.mem_filter, h, hc]

theorem countP_calls (p : Event → Bool) (hp : ∀ e, p e = true → e.isCall = true)
    (t : List Event) : (calls t).countP p = t.countP p := by
  induction t with
  | nil => rfl
  | cons a t ih =>
    cases hc : a.isCall
    · have hpa : p a = false := by
        cases h : p a
        · rfl
        · rw [hp a h] at hc; cases hc
      simp [calls_cons, hc, List.countP_cons, hpa, ih]
    · simp [calls_cons, hc, List.countP_cons, ih]

/-- When no `q` comes before the first `p`, a `q` in the trace has a `p`
before it. -/
theorem mem_before_of_all (p q : Event → Bool) (hpq : ∀ e, p e = true → q e = false)
    (t : List Event) (h : (before p t).all (fun e => !q e) = true) (x : Event) (hx : x ∈ t)
    (hq : q x = true) :
    ∃ y ∈ before q t, p y = true := by
  induction t with
  | nil => cases hx
  | cons a t ih =>
    cases hp : p a
    · simp only [before, List.takeWhile_cons, hp, Bool.not_false, if_true, List.all_cons,
        Bool.and_eq_true, Bool.not_eq_true'] at h
      have hqa : q a = false := h.1
      have hxt : x ∈ t := by
        rcases List.mem_cons.mp hx with rfl | hxt
        · rw [hq] at hqa; cases hqa
        · exact hxt
      obtain ⟨y, hy, hpy⟩ := ih h.2 hxt
      refine ⟨y, ?_, hpy⟩
      simp only [before, List.takeWhile_cons, hqa, Bool.not_false, if_true, List.mem_cons]
      exact Or.inr hy
    · refine ⟨a, ?_, hp⟩
      simp [before, List.takeWhile_cons, hpq a hp]

/-! ## Facts about the script -/

theorem script_countP (FLAGS : Flags) (no : NodeOptions) (topts : TrajectoryOptions)
    (mb : MapBuilder) :
    (script FLAGS no topts mb).countP Event.isLoadOptions ≤ 1
    ∧ (script FLAGS no topts mb).countP Event.isCreateMapBuilder ≤ 1
    ∧ (script FLAGS no topts mb).countP Event.isLoadState ≤ 1
    ∧ (script FLAGS no topts mb).countP Event.isStartTrajectory ≤ 1
    ∧ (script FLAGS no topts mb).countP Event.isFinishAllTrajectories ≤ 1
    ∧ (script FLAGS no topts mb).countP Event.isRunFinalOptimization ≤ 1
    ∧ (script FLAGS no topts mb).countP Event.isSerializeState ≤ 1 := by
  unfold script script_construction script_from_load script_from_start script_from_spin
  cases FLAGS.load_state_filename.isEmpty <;>
  cases FLAGS.start_trajectory_with_default_topics <;>
  cases FLAGS.save_state_filename.isEmpty <;>
  simp [List.countP_cons, Event.isLoadOptions, Event.isCreateMapBuilder, Event.isLoadState,
    Event.isStartTrajectory, Event.isFinishAllTrajectories, Event.isRunFinalOptimization,
    Event.isSerializeState]

theorem script_order (FLAGS : Flags) (no : NodeOptions) (topts : TrajectoryOptions)
    (mb : MapBuilder) :
    (after Event.isFinishAllTrajectories (script FLAGS no topts mb)).all
        (fun e => !e.isStartTrajectory && !e.isLoadState) = true
    ∧ (before Event.isFinishAllTrajectories (script FLAGS no topts mb)).all
        (fun e => !e.isRunFinalOptimization) = true
    ∧ (before Event.isRunFinalOptimization (script FLAGS no topts mb)).all
        (fun e => !e.isSerializeState) = true
    ∧ (before Event.isFinishAllTrajectories (script FLAGS no topts mb)).all
        (fun e => !e.isSerializeState) = true
    ∧ (before Event.isLoadOptions (script FLAGS no topts mb)).all
        (fun e => !e.isCreateMapBuilder) = true
    ∧ (before Event.isNode (script FLAGS no topts mb)).all
        (fun e => !e.isLoadState) = true
    ∧ (after Event.isStartTrajectory (script FLAGS no topts mb)).all
        (fun e => !e.isLoadState) = true := by
  unfold script script_construction script_from_load script_from_start script_from_spin
  cases FLAGS.load_state_filename.isEmpty <;>
  cases FLAGS.start_trajectory_with_default_topics <;>
  cases FLAGS.save_state_filename.isEmpty <;>
  simp [before, after, List.takeWhile_cons, List.dropWhile_cons, Event.isLoadOptions,
    Event.isCreateMapBuilder, Event.isLoadState, Event.isNode,
    Event.isStartTrajectory, Event.isFinishAllTrajectories, Event.isRunFinalOptimization,
    Event.isSerializeState]

theorem script_lifecycle (FLAGS : Flags) (no : NodeOptions) (topts : TrajectoryOptions)
    (mb : MapBuilder) :
    ∃ p, lifecycleRun Phase.Unconstructed (nodeOps (script FLAGS no topts mb)) = .ok p
      ∧ p.isFinal = true := by
  unfold script script_construction script_from_load script_from_start script_from_spin
  cases FLAGS.load_state_filename.isEmpty <;>
  cases FLAGS.start_trajectory_with_default_topics <;>
  cases FLAGS.save_state_filename.isEmpty <;>
  simp [nodeOps, Event.nodeOp, lifecycleRun, lifecycle, Phase.isFinal]

theorem script_mem (FLAGS : Flags) (no : NodeOptions) (topts : TrajectoryOptions)
    (mb : MapBuilder) : ∀ e ∈ script FLAGS no topts mb,
    (e.isLoadOptions = true →
      e = Event.LoadOptions FLAGS.configuration_directory FLAGS.configuration_basename)
    ∧ (e.isCreateMapBuilder = true → e = Event.CreateMapBuilder no.map_builder_options)
    ∧ (e.isNode = true → e = Event.Node no mb FLAGS.collect_metrics)
    ∧ (e.isLoadState = true → FLAGS.load_state_filename.isEmpty = false
        ∧ e = Event.LoadState FLAGS.load_state_filename FLAGS.load_frozen_state)
    ∧ (e.isStartTrajectory = true → FLAGS.start_trajectory_with_default_topics = true
        ∧ e = Event.StartTrajectoryWithDefaultTopics topts)
    ∧ (e.isSerializeState = true → FLAGS.save_state_filename.isEmpty = false
        ∧ e = Event.SerializeState FLAGS.save_state_filename true) := by
  unfold script script_construction script_from_load script_from_start script_from_spin
  cases FLAGS.load_state_filename.isEmpty <;>
  cases FLAGS.start_trajectory_with_default_topics <;>
  cases FLAGS.save_state_filename.isEmpty <;>
  simp [Event.isLoadOptions, Event.isCreateMapBuilder, Event.isNode, Event.isLoadState,
    Event.isStartTrajectory, Event.isSerializeState]

theorem isCall_of (e : Event) :
    (e.isLoadOptions = true → e.isCall = true)
    ∧ (e.isCreateMapBuilder = true → e.isCall = true)
    ∧ (e.isNode = true → e.isCall = true)
    ∧ (e.isLoadState = true → e.isCall = true)
    ∧ (e.isStartTrajectory = true → e.isCall = true)
    ∧ (e.isSpin = true → e.isCall = true)
    ∧ (e.isFinishAllTrajectories = true → e.isCall = true)
    ∧ (e.isRunFinalOptimization = true → e.isCall = true)
    ∧ (e.isSerializeState = true → e.isCall = true) := by
  cases e <;> simp [Event.isCall, Event.isLoadOptions, Event.isCreateMapBuilder, Event.isNode,
    Event.isLoadState, Event.isStartTrajectory, Event.isSpin, Event.isFinishAllTrajectories,
    Event.isRunFinalOptimization, Event.isSerializeState]

/-- A call that the script holds at most once is issued at most once. -/
theorem Run_countP_le (FLAGS : Flags) (w : World) (p : Event → Bool)
    (hp : ∀ e, p e = true → e.isCall = true)
    (hs : ∀ no topts mb, (script FLAGS no topts mb).countP p ≤ 1) :
    (Run FLAGS w).trace.countP p ≤ 1 := by
  obtain ⟨no, topts, mb, rest, h, -, -⟩ := Run_calls FLAGS w
  rw [← countP_calls p hp]
  exact Nat.le_trans (countP_le_of_append p _ rest _ h) (hs no topts mb)

/-! ## Claims about every run -/

/-- Claim C9: there are no retries in the Run Sequence.  For every flag
configuration and every outcome of the collaborator calls, each of
LoadOptions, CreateMapBuilder, LoadState, StartTrajectory,
FinishAllTrajectories, RunFinalOptimization and SerializeState occurs at most
once in the trace of one execution of `Run`. -/
theorem C9_each_call_at_most_once (FLAGS : Flags) (w : World) :
    (Run FLAGS w).trace.countP Event.isLoadOptions ≤ 1
    ∧ (Run FLAGS w).trace.countP Event.isCreateMapBuilder ≤ 1
    ∧ (Run FLAGS w).trace.countP Event.isLoadState ≤ 1
    ∧ (Run FLAGS w).trace.countP Event.isStartTrajectory ≤ 1
    ∧ (Run FLAGS w).trace.countP Event.isFinishAllTrajectories ≤ 1
    ∧ (Run FLAGS w).trace.countP Event.isRunFinalOptimization ≤ 1
    ∧ (Run FLAGS w).trace.countP Event.isSerializeState ≤ 1 := by
  have hs := script_countP FLAGS
  refine ⟨?_, ?_, ?_, ?_, ?_, ?_, ?_⟩
  · exact Run_countP_le FLAGS w _ (fun e => (isCall_of e).1) (fun a b c => (hs a b c).1)
  · exact Run_countP_le FLAGS w _ (fun e => (isCall_of e).2.1) (fun a b c => (hs a b c).2.1)
  · exact Run_countP_le FLAGS w _ (fun e => (isCall_of e).2.2.2.1)
      (fun a b c => (hs a b c).2.2.1)
  · exact Run_countP_le FLAGS w _ (fun e => (isCall_of e).2.2.2.2.1)
      (fun a b c => (hs a b c).2.2.2.1)
  · exact Run_countP_le FLAGS w _ (fun e => (isCall_of e).2.2.2.2.2.2.1)
      (fun a b c => (hs a b c).2.2.2.2.1)
  · exact Run_countP_le FLAGS w _ (fun e => (isCall_of e).2.2.2.2.2.2.2.1)
      (fun a b c => (hs a b c).2.2.2.2.2.1)
  · exact Run_countP_le FLAGS w _ (fun e => (isCall_of e).2.2.2.2.2.2.2.2)
      (fun a b c => (hs a b c).2.2.2.2.2.2)

/-- Claim C10: whenever `Run` calls SerializeState, the path is
`save_state_filename` unchanged and `include_unfinished_submaps` is `true`,
whatever the flags and whatever the collaborators return; and by then
FinishAllTrajectories and RunFinalOptimization have both been called. -/
theorem C10_serialize_includes_unfinished_submaps (FLAGS : Flags) (w : World) (f : String)
    (b : Bool) (h : Event.SerializeState f b ∈ (Run FLAGS w).trace) :
    f = FLAGS.save_state_filename ∧ b = true
    ∧ Event.FinishAllTrajectories ∈ before Event.isSerializeState (calls (Run FLAGS w).trace)
    ∧ Event.RunFinalOptimization
        ∈ before Event.isSerializeState (calls (Run FLAGS w).trace) := by
  obtain ⟨no, topts, mb, rest, hs, -, -⟩ := Run_calls FLAGS w
  have hc : Event.SerializeState f b ∈ calls (Run FLAGS w).trace := mem_calls _ _ h rfl
  have hm : Event.SerializeState f b ∈ script FLAGS no topts mb := by
    rw [← hs]; exact List.mem_append_left _ hc
  have he := ((script_mem FLAGS no topts mb _ hm).2.2.2.2.2 rfl).2
  obtain ⟨-, -, h3, h4, -, -, -⟩ := script_order FLAGS no topts mb
  rw [← hs] at h3 h4
  have h3 := before_all_of_append _ _ _ _ h3
  have h4 := before_all_of_append _ _ _ _ h4
  obtain ⟨y, hy, hyp⟩ := mem_before_of_all Event.isFinishAllTrajectories Event.isSerializeState
    (by intro e; cases e <;> simp [Event.isFinishAllTrajectories, Event.isSerializeState])
    _ h4 _ hc rfl
  obtain ⟨z, hz, hzp⟩ := mem_before_of_all Event.isRunFinalOptimization Event.isSerializeState
    (by intro e; cases e <;> simp [Event.isRunFinalOptimization, Event.isSerializeState])
    _ h3 _ hc rfl
  have hy2 : y = Event.FinishAllTrajectories := by
    cases y <;> simp [Event.isFinishAllTrajectories] at hyp ⊢
  have hz2 : z = Event.RunFinalOptimization := by
    cases z <;> simp [Event.isRunFinalOptimization] at hzp ⊢
  subst hy2 hz2
  injection he with hf hb
  exact ⟨hf, hb, hy, hz⟩

/-- Claim C10 at a concrete run: with `--save_state_filename=out.pbstream` and
collaborators that succeed, the call is `SerializeState("out.pbstream", true)`. -/
theorem C10_witness :
    Event.SerializeState "out.pbstream" true ∈ (Run flags_save world_ok).trace
    ∧ ("out.pbstream" = flags_save.save_state_filename ∧ true = true
      ∧ Event.FinishAllTrajectories
          ∈ before Event.isSerializeState (calls (Run flags_save world_ok).trace)
      ∧ Event.RunFinalOptimization
          ∈ before Event.isSerializeState (calls (Run flags_save world_ok).trace)) :=
  ⟨by decide, C10_serialize_includes_unfinished_submaps flags_save world_ok "out.pbstream" true
    (by decide)⟩

/-- Claim C2: for every combination of the flags and every behaviour of the
collaborators, the Node Controller operations `Run` issues drive the state
machine Construct, LoadState?, StartTrajectory*, FinishAllTrajectories,
RunFinalOptimization, SerializeState? without ever meeting a
`LifecycleOrderError`, and form a whole word of it when `Run` returns.  In
particular no StartTrajectory or LoadState comes after FinishAllTrajectories,
no RunFinalOptimization before FinishAllTrajectories, and no SerializeState
before RunFinalOptimization. -/
theorem C2_lifecycle_order (FLAGS : Flags) (w : World) :
    (∃ p, lifecycleRun Phase.Unconstructed (nodeOps (Run FLAGS w).trace) = .ok p
      ∧ ((Run FLAGS w).value = some () → p.isFinal = true))
    ∧ (after Event.isFinishAllTrajectories (calls (Run FLAGS w).trace)).all
        (fun e => !e.isStartTrajectory && !e.isLoadState) = true
    ∧ (before Event.isFinishAllTrajectories (calls (Run FLAGS w).trace)).all
        (fun e => !e.isRunFinalOptimization) = true
    ∧ (before Event.isRunFinalOptimization (calls (Run FLAGS w).trace)).all
        (fun e => !e.isSerializeState) = true := by
  obtain ⟨no, topts, mb, rest, hs, hv, -⟩ := Run_calls FLAGS w
  obtain ⟨h1, h2, h3, -, -, -, -⟩ := script_order FLAGS no topts mb
  obtain ⟨p, hp, hfin⟩ := script_lifecycle FLAGS no topts mb
  rw [← hs] at h1 h2 h3
  refine ⟨?_, after_all_of_append _ _ _ _ h1, before_all_of_append _ _ _ _ h2,
    before_all_of_append _ _ _ _ h3⟩
  rw [← nodeOps_calls]
  rcases hv with hv | hv
  · rw [← hs] at hp
    simp only [nodeOps, List.filterMap_append] at hp
    obtain ⟨q, hq⟩ := lifecycleRun_append _ _ _ _ hp
    refine ⟨q, hq, ?_⟩
    intro h
    rw [hv] at h
    cases h
  · rw [hv, List.append_nil] at hs
    rw [hs]
    exact ⟨p, hp, fun _ => hfin⟩

/-- Claim C2 at a concrete run that returns: loading a state, starting a
trajectory and shutting down is a whole word of the state machine. -/
theorem C2_witness :
    (Run flags_load world_ok).value = some ()
    ∧ ∃ p, lifecycleRun Phase.Unconstructed (nodeOps (Run flags_load world_ok).trace) = .ok p
        ∧ p.isFinal = true :=
  ⟨by decide, (C2_lifecycle_order flags_load world_ok).1.elim
    (fun p hp => ⟨p, hp.1, hp.2 (by decide)⟩)⟩

/-! ## `main` around `Run` -/

theorem log_quiet {α : Type} (o : Outcome α) :
    o.log.all (fun e => !e.isCheckFailed) = true := by
  cases o <;> simp [Outcome.log, Event.isCheckFailed]

theorem from_spin_quiet (FLAGS : Flags) (w : World) :
    (Run_from_spin FLAGS w).trace.all (fun e => !e.isCheckFailed) = true := by
  have l1 := log_quiet w.spin
  have l2 := log_quiet w.FinishAllTrajectories
  have l3 := log_quiet w.RunFinalOptimization
  have l4 := log_quiet (w.SerializeState FLAGS.save_state_filename true)
  simp only [Run_from_spin, Proc.trace_bind, Proc.value_bind, ros.spin,
    Node.FinishAllTrajectories, Node.RunFinalOptimization, Node.SerializeState, call]
  cases hv : FLAGS.save_state_filename.isEmpty <;>
  rcases h6 : w.spin.value with _ | _ <;>
  rcases h7 : w.FinishAllTrajectories.value with _ | _ <;>
  rcases h8 : w.RunFinalOptimization.value with _ | _ <;>
  simp_all [Proc.trace_unit, Event.isCheckFailed, List.all_append]

theorem from_start_quiet (FLAGS : Flags) (w : World) (topts : TrajectoryOptions) :
    (Run_from_start FLAGS w topts).trace.all (fun e => !e.isCheckFailed) = true := by
  have l1 := log_quiet (w.StartTrajectoryWithDefaultTopics topts)
  have l2 := from_spin_quiet FLAGS w
  cases hs : FLAGS.start_trajectory_with_default_topics <;>
  rcases h5 : (w.StartTrajectoryWithDefaultTopics topts).value with _ | _ <;>
  simp_all [Run_from_start, Proc.trace_bind, Proc.value_bind, Proc.trace_unit,
    Proc.value_unit, Node.StartTrajectoryWithDefaultTopics, call, Event.isCheckFailed,
    List.all_append]

theorem from_load_quiet (FLAGS : Flags) (w : World) (topts : TrajectoryOptions) :
    (Run_from_load FLAGS w topts).trace.all (fun e => !e.isCheckFailed) = true := by
  have l1 := log_quiet (w.LoadState FLAGS.load_state_filename FLAGS.load_frozen_state)
  have l2 := from_start_quiet FLAGS w topts
  cases hs : FLAGS.load_state_filename.isEmpty <;>
  rcases h5 : (w.LoadState FLAGS.load_state_filename FLAGS.load_frozen_state).value
    with _ | _ <;>
  simp_all [Run_from_load, Proc.trace_bind, Proc.value_bind, Proc.trace_unit,
    Proc.value_unit, Node.LoadState, call, Event.isCheckFailed, List.all_append]

/-- No `CHECK` fails inside `Run`: it contains none. -/
theorem Run_quiet (FLAGS : Flags) (w : World) :
    (Run FLAGS w).trace.all (fun e => !e.isCheckFailed) = true := by
  have l1 := log_quiet
    (w.LoadOptions FLAGS.configuration_directory FLAGS.configuration_basename)
  rcases h1 : (w.LoadOptions FLAGS.configuration_directory FLAGS.configuration_basename).value
    with _ | ⟨no, topts⟩
  · simp_all [Run_eq, Proc.trace_bind, Proc.value_bind, step, LoadOptions, call,
      Event.isCheckFailed, List.all_append]
  have l2 := log_quiet (w.CreateMapBuilder no.map_builder_options)
  rcases h2 : (w.CreateMapBuilder no.map_builder_options).value with _ | mb
  · simp_all [Run_eq, Proc.trace_bind, Proc.value_bind, step, LoadOptions, CreateMapBuilder,
      call, Event.isCheckFailed, List.all_append]
  have l3 := log_quiet (w.Node no mb FLAGS.collect_metrics)
  have l4 := from_load_quiet FLAGS w topts
  rcases h3 : (w.Node no mb FLAGS.collect_metrics).value with _ | _ <;>
  simp_all [Run_eq, Proc.trace_bind, Proc.value_bind, step, LoadOptions, CreateMapBuilder, Node,
    call, Event.isCheckFailed, List.all_append]

/-- What `main` does once both checks pass: it enters `Run`, and calls
`ros::shutdown` and returns 0 exactly when `Run` returns. -/
theorem main_entered (FLAGS : Flags) (w : World)
    (hdir : FLAGS.configuration_directory.isEmpty = false)
    (hbase : FLAGS.configuration_basename.isEmpty = false) :
    (main FLAGS w).trace = main_entry ++ (Run FLAGS w).trace ++
        (if (Run FLAGS w).value.isSome then [Event.ros_shutdown] else [])
    ∧ (main FLAGS w).status
        = if (Run FLAGS w).value.isSome then ExitStatus.exited 0 else ExitStatus.aborted := by
  cases hv : (Run FLAGS w).value <;>
  simp [main, main_body, CHECK, hdir, hbase, Proc.trace_bind, Proc.value_bind, step, hv,
    main_entry]

/-- Claim C5: if `configuration_directory` or `configuration_basename` is
empty, `main` ends in a failed `CHECK` whose message names the missing flag,
right after the command line is parsed: the process is aborted (exit status
not 0) and the trace holds no LoadOptions, no CreateMapBuilder, no Node
construction and no lifecycle operation.  When both are non-empty no `CHECK`
fails and `Run` is entered. -/
theorem C5_configuration_checks (FLAGS : Flags) (w : World) :
    (FLAGS.configuration_directory.isEmpty = true →
      main FLAGS w = ⟨[Event.InitGoogleLogging, Event.ParseCommandLineFlags,
        Event.CheckFailed "-configuration_directory is missing."], ExitStatus.aborted⟩)
    ∧ (FLAGS.configuration_directory.isEmpty = false →
      FLAGS.configuration_basename.isEmpty = true →
      main FLAGS w = ⟨[Event.InitGoogleLogging, Event.ParseCommandLineFlags,
        Event.CheckFailed "-configuration_basename is missing."], ExitStatus.aborted⟩)
    ∧ (FLAGS.configuration_directory.isEmpty = false →
      FLAGS.configuration_basename.isEmpty = false →
      (main FLAGS w).trace.all (fun e => !e.isCheckFailed) = true
      ∧ (main FLAGS w).trace = main_entry ++ (Run FLAGS w).trace ++
          (if (Run FLAGS w).value.isSome then [Event.ros_shutdown] else [])) := by
  refine ⟨?_, ?_, ?_⟩
  · intro hdir
    simp [main, main_body, CHECK, hdir, Proc.trace_bind, Proc.value_bind, step]
  · intro hdir hbase
    simp [main, main_body, CHECK, hdir, hbase, Proc.trace_bind, Proc.value_bind, step]
  · intro hdir hbase
    have h := (main_entered FLAGS w hdir hbase).1
    refine ⟨?_, h⟩
    rw [h]
    have hq := Run_quiet FLAGS w
    cases (Run FLAGS w).value <;>
    simp_all [List.all_append, main_entry, Event.isCheckFailed]

/-- Claim C5 at concrete command lines: the default flags (both identifiers
empty) stop at the first check; a directory without a basename stops at the
second; with both, `Run` is entered and no check fails. -/
theorem C5_witness :
    main FLAGS_default world_ok = ⟨[Event.InitGoogleLogging, Event.ParseCommandLineFlags,
        Event.CheckFailed "-configuration_directory is missing."], ExitStatus.aborted⟩
    ∧ main ⟨false, "cfg", "", "", true, true, ""⟩ world_ok
      = ⟨[Event.InitGoogleLogging, Event.ParseCommandLineFlags,
        Event.CheckFailed "-configuration_basename is missing."], ExitStatus.aborted⟩
    ∧ (main flags_save world_ok).trace.all (fun e => !e.isCheckFailed) = true :=
  ⟨(C5_configuration_checks FLAGS_default world_ok).1 (by decide),
    (C5_configuration_checks ⟨false, "cfg", "", "", true, true, ""⟩ world_ok).2.1
      (by decide) (by decide),
    ((C5_configuration_checks flags_save world_ok).2.2 (by decide) (by decide)).1⟩

/-! ## Runs in which no call fails -/

theorem Run_noFailure (FLAGS : Flags) (w : World) (no : NodeOptions) (topts : TrajectoryOptions)
    (mb : MapBuilder) (hw : w.NoFailure)
    (h1 : w.LoadOptions FLAGS.configuration_directory FLAGS.configuration_basename
      = Outcome.returns (no, topts))
    (h2 : w.CreateMapBuilder no.map_builder_options = Outcome.returns mb) :
    (Run FLAGS w).trace = script FLAGS no topts mb ∧ (Run FLAGS w).value = some () := by
  obtain ⟨-, -, h3, h4, h5, h6, h7, h8, h9⟩ := hw
  cases hl : FLAGS.load_state_filename.isEmpty <;>
  cases hs : FLAGS.start_trajectory_with_default_topics <;>
  cases hv : FLAGS.save_state_filename.isEmpty <;>
  simp [Run_eq, Run_from_load, Run_from_start, Run_from_spin, script, script_construction,
    script_from_load, script_from_start, script_from_spin, Proc.trace_bind, Proc.value_bind,
    Proc.trace_unit, Proc.value_unit, step, LoadOptions, CreateMapBuilder, Node, Node.LoadState,
    Node.StartTrajectoryWithDefaultTopics, ros.spin, Node.FinishAllTrajectories,
    Node.RunFinalOptimization, Node.SerializeState, call, Outcome.log, Outcome.value,
    h1, h2, h3, h4, h5, h6, h7, h8, h9, hl, hs, hv]

theorem script_spin (FLAGS : Flags) (no : NodeOptions) (topts : TrajectoryOptions)
    (mb : MapBuilder) (pre post : List Event)
    (hpre : pre.all (fun e => !e.isSpin && !e.isShutdownOp && !e.onNode) = true) :
    Event.spin ∈ pre ++ script FLAGS no topts mb ++ post
    ∧ after Event.isSpin (pre ++ script FLAGS no topts mb ++ post)
      = [Event.FinishAllTrajectories, Event.RunFinalOptimization] ++
        (if !FLAGS.save_state_filename.isEmpty then
          [Event.SerializeState FLAGS.save_state_filename true] else []) ++ post
    ∧ (before Event.isSpin (pre ++ script FLAGS no topts mb ++ post)).all
        (fun e => !e.isShutdownOp) = true := by
  have hsp : ∀ a ∈ pre, (!a.isSpin) = true := by
    intro a ha
    have := List.all_eq_true.mp hpre a ha
    simp only [Bool.and_eq_true] at this
    exact this.1.1
  have hd : ∀ l : List Event, (pre ++ l).dropWhile (fun e => !e.isSpin)
      = l.dropWhile (fun e => !e.isSpin) :=
    fun l => List.dropWhile_append_of_pos hsp
  have ht : ∀ l : List Event, (pre ++ l).takeWhile (fun e => !e.isSpin)
      = pre ++ l.takeWhile (fun e => !e.isSpin) :=
    fun l => List.takeWhile_append_of_pos hsp
  have hp : pre.all (fun e => !e.isShutdownOp) = true := by
    rw [List.all_eq_true] at hpre ⊢
    intro e he
    have := hpre e he
    simp only [Bool.and_eq_true] at this
    exact this.1.2
  refine ⟨?_, ?_, ?_⟩
  · simp [script, script_from_load, script_from_start, script_from_spin]
  · simp only [after, List.append_assoc, hd]
    unfold script script_construction script_from_load script_from_start script_from_spin
    cases FLAGS.load_state_filename.isEmpty <;>
    cases FLAGS.start_trajectory_with_default_topics <;>
    cases FLAGS.save_state_filename.isEmpty <;>
    simp [List.dropWhile_cons, Event.isSpin]
  · simp only [before, List.append_assoc, ht, List.all_append, hp, Bool.true_and]
    unfold script script_construction script_from_load script_from_start script_from_spin
    cases FLAGS.load_state_filename.isEmpty <;>
    cases FLAGS.start_trajectory_with_default_topics <;>
    cases FLAGS.save_state_filename.isEmpty <;>
    simp [List.takeWhile_cons, Event.isSpin, Event.isShutdownOp, Event.isFinishAllTrajectories,
      Event.isRunFinalOptimization, Event.isSerializeState]

/-- Claim C1: when both configuration identifiers are non-empty and no
collaborator call fails, the wait returns and what `Run` does after it is
exactly FinishAllTrajectories, then RunFinalOptimization, then SerializeState
(with the save path) if and only if `save_state_filename` is non-empty; none of
the three is issued before the wait.  The same holds of the Node operations in
the trace of the whole process. -/
theorem C1_shutdown_sequence (FLAGS : Flags) (w : World)
    (hdir : FLAGS.configuration_directory.isEmpty = false)
    (hbase : FLAGS.configuration_basename.isEmpty = false)
    (hw : w.NoFailure) :
    Event.spin ∈ (Run FLAGS w).trace
    ∧ after Event.isSpin (Run FLAGS w).trace
      = [Event.FinishAllTrajectories, Event.RunFinalOptimization] ++
        (if !FLAGS.save_state_filename.isEmpty then
          [Event.SerializeState FLAGS.save_state_filename true] else [])
    ∧ (before Event.isSpin (Run FLAGS w).trace).all (fun e => !e.isShutdownOp) = true
    ∧ (after Event.isSpin (main FLAGS w).trace).filter Event.onNode
      = [Event.FinishAllTrajectories, Event.RunFinalOptimization] ++
        (if !FLAGS.save_state_filename.isEmpty then
          [Event.SerializeState FLAGS.save_state_filename true] else [])
    ∧ (before Event.isSpin (main FLAGS w).trace).all (fun e => !e.isShutdownOp) = true := by
  obtain ⟨⟨no, topts⟩, h1⟩ := hw.1 FLAGS.configuration_directory FLAGS.configuration_basename
  obtain ⟨mb, h2⟩ := hw.2.1 no.map_builder_options
  obtain ⟨ht, hv⟩ := Run_noFailure FLAGS w no topts mb hw h1 h2
  obtain ⟨hm, -⟩ := main_entered FLAGS w hdir hbase
  rw [ht, hv] at hm
  have a := script_spin FLAGS no topts mb [] [] rfl
  have b := script_spin FLAGS no topts mb main_entry [Event.ros_shutdown] (by decide)
  simp only [List.nil_append, List.append_nil] at a
  rw [ht, hm]
  refine ⟨a.1, a.2.1, a.2.2, ?_, b.2.2⟩
  have hb := b.2.1
  simp only [Option.isSome_some, if_true]
  rw [hb]
  cases FLAGS.save_state_filename.isEmpty <;>
  simp [Event.onNode, Event.isNode, Event.isLifecycleOp, Event.isLoadState,
    Event.isStartTrajectory, Event.isShutdownOp, Event.isFinishAllTrajectories,
    Event.isRunFinalOptimization, Event.isSerializeState]

/-- Collaborators that all succeed do not fail. -/
theorem world_ok_noFailure : world_ok.NoFailure :=
  ⟨fun _ _ => ⟨_, rfl⟩, fun _ => ⟨_, rfl⟩, fun _ _ _ => rfl, fun _ _ => rfl, fun _ => rfl,
    rfl, rfl, rfl, fun _ _ => rfl⟩

/-- Claim C1 at a concrete run with a save path. -/
theorem C1_witness :
    flags_save.configuration_directory.isEmpty = false
    ∧ flags_save.configuration_basename.isEmpty = false
    ∧ world_ok.NoFailure
    ∧ after Event.isSpin (Run flags_save world_ok).trace
      = [Event.FinishAllTrajectories, Event.RunFinalOptimization,
          Event.SerializeState "out.pbstream" true] :=
  ⟨by decide, by decide, world_ok_noFailure,
    (C1_shutdown_sequence flags_save world_ok (by decide) (by decide) world_ok_noFailure).2.1⟩

/-! ## Runs in which a collaborator fails -/

theorem all_of_calls (p : Event → Bool) (hp : ∀ e, e.isCall = false → p e = true)
    (t : List Event) (h : (calls t).all p = true) : t.all p = true := by
  induction t with
  | nil => rfl
  | cons a t ih =>
    cases hc : a.isCall
    · simp only [calls_cons, hc, Bool.false_eq_true, if_false] at h
      simp only [List.all_cons, hp a hc, ih h, Bool.and_self]
    · simp only [calls_cons, hc, if_true, List.all_cons, Bool.and_eq_true] at h
      simp only [List.all_cons, h.1, ih h.2, Bool.and_self]

/-- The trace of `Run` once the `Node` is constructed: what the construction
wrote, then the trace of the rest. -/
theorem Run_constructed_trace (FLAGS : Flags) (w : World) (no : NodeOptions)
    (topts : TrajectoryOptions) (mb : MapBuilder)
    (h1 : (w.LoadOptions FLAGS.configuration_directory FLAGS.configuration_basename).value
      = some (no, topts))
    (h2 : (w.CreateMapBuilder no.map_builder_options).value = some mb)
    (h3 : (w.Node no mb FLAGS.collect_metrics).value = some ()) :
    ∃ pre, (Run FLAGS w).trace = pre ++ (Run_from_load FLAGS w topts).trace := by
  refine ⟨Event.tf_buffer kTfBufferCacheTimeInSeconds :: Event.TransformListener ::
    Event.LoadOptions FLAGS.configuration_directory FLAGS.configuration_basename ::
    ((w.LoadOptions FLAGS.configuration_directory FLAGS.configuration_basename).log ++
      Event.CreateMapBuilder no.map_builder_options ::
      ((w.CreateMapBuilder no.map_builder_options).log ++
        Event.Node no mb FLAGS.collect_metrics :: (w.Node no mb FLAGS.collect_metrics).log)), ?_⟩
  simp [Run_eq, Proc.trace_bind, Proc.value_bind, step, LoadOptions, CreateMapBuilder, Node,
    call, h1, h2, h3]

/-- Claim C6: if a prior-state path is supplied and LoadState fails (a
`StateLoadError`, which ends the process), then LoadState is the last call of
the process: no StartTrajectory, FinishAllTrajectories, RunFinalOptimization
or SerializeState is issued, and the process is aborted (exit status not 0). -/
theorem C6_state_load_failure_aborts (FLAGS : Flags) (w : World) (no : NodeOptions)
    (topts : TrajectoryOptions) (mb : MapBuilder)
    (hdir : FLAGS.configuration_directory.isEmpty = false)
    (hbase : FLAGS.configuration_basename.isEmpty = false)
    (hload : FLAGS.load_state_filename.isEmpty = false)
    (h1 : (w.LoadOptions FLAGS.configuration_directory FLAGS.configuration_basename).value
      = some (no, topts))
    (h2 : (w.CreateMapBuilder no.map_builder_options).value = some mb)
    (h3 : (w.Node no mb FLAGS.collect_metrics).value = some ())
    (hfail : w.LoadState FLAGS.load_state_filename FLAGS.load_frozen_state
      = LoadState_failure) :
    calls (main FLAGS w).trace
      = main_entry ++ script_construction FLAGS no mb
        ++ [Event.LoadState FLAGS.load_state_filename FLAGS.load_frozen_state]
    ∧ (main FLAGS w).trace.getLast? = some (Event.Fatal Failure.StateLoadError)
    ∧ (main FLAGS w).trace.all (fun e => !e.isStartTrajectory && !e.isShutdownOp) = true
    ∧ (main FLAGS w).status = ExitStatus.aborted
    ∧ (main FLAGS w).status ≠ ExitStatus.exited 0 := by
  obtain ⟨hc, hv⟩ := Run_constructed FLAGS w no topts mb h1 h2 h3
  obtain ⟨pre, ht⟩ := Run_constructed_trace FLAGS w no topts mb h1 h2 h3
  obtain ⟨hm, hs⟩ := main_entered FLAGS w hdir hbase
  have hl : (Run_from_load FLAGS w topts).trace
      = [Event.LoadState FLAGS.load_state_filename FLAGS.load_frozen_state,
          Event.Fatal Failure.StateLoadError]
      ∧ (Run_from_load FLAGS w topts).value = none := by
    simp [Run_from_load, hload, hfail, LoadState_failure, Proc.trace_bind, Proc.value_bind,
      Node.LoadState, call, Outcome.log, Outcome.value]
  rw [hl.2] at hv
  rw [hl.1] at hc
  have hcm : calls (main FLAGS w).trace
      = main_entry ++ script_construction FLAGS no mb
        ++ [Event.LoadState FLAGS.load_state_filename FLAGS.load_frozen_state] := by
    rw [hm, hv, calls_append, calls_append, hc]
    simp [calls_cons, calls_nil, Event.isCall, main_entry]
  refine ⟨hcm, ?_, ?_, ?_, ?_⟩
  · rw [hm, hv, ht, hl.1]
    simp [List.getLast?_append]
  · apply all_of_calls
    · intro e he
      cases e <;> simp [Event.isCall, Event.isStartTrajectory, Event.isShutdownOp,
        Event.isFinishAllTrajectories, Event.isRunFinalOptimization, Event.isSerializeState] at he ⊢
    · rw [hcm]
      simp [main_entry, script_construction, Event.isStartTrajectory, Event.isShutdownOp,
        Event.isFinishAllTrajectories, Event.isRunFinalOptimization, Event.isSerializeState]
  · rw [hs, hv]; rfl
  · rw [hs, hv]; simp

/-- Claim C6 at a concrete run: the state file named on the command line
cannot be loaded. -/
theorem C6_witness :
    flags_load.load_state_filename.isEmpty = false
    ∧ world_bad_state.LoadState flags_load.load_state_filename flags_load.load_frozen_state
      = LoadState_failure
    ∧ (main flags_load world_bad_state).trace.getLast? = some (Event.Fatal Failure.StateLoadError)
    ∧ (main flags_load world_bad_state).status = ExitStatus.aborted :=
  ⟨by decide, rfl,
    (C6_state_load_failure_aborts flags_load world_bad_state ⟨⟨1⟩, 2⟩ ⟨3⟩ ⟨11⟩ (by decide)
      (by decide) (by decide) rfl rfl rfl rfl).2.1,
    (C6_state_load_failure_aborts flags_load world_bad_state ⟨⟨1⟩, 2⟩ ⟨3⟩ ⟨11⟩ (by decide)
      (by decide) (by decide) rfl rfl rfl rfl).2.2.2.1⟩

/-- Claim C7: `Run` resolves the configuration with exactly
`configuration_directory` and `configuration_basename`, before it calls
CreateMapBuilder, and builds the engine from the `map_builder_options` of the
NodeOptions the loader returned.  If the loader fails (a `ConfigurationError`,
which ends the process), the process is aborted (exit status not 0) with no
CreateMapBuilder call, no Node construction and no lifecycle operation. -/
theorem C7_configuration_failure_aborts (FLAGS : Flags) (w : World) :
    (∀ e ∈ (Run FLAGS w).trace, e.isLoadOptions = true →
      e = Event.LoadOptions FLAGS.configuration_directory FLAGS.configuration_basename)
    ∧ (before Event.isLoadOptions (calls (Run FLAGS w).trace)).all
        (fun e => !e.isCreateMapBuilder) = true
    ∧ (∀ o, Event.CreateMapBuilder o ∈ (Run FLAGS w).trace →
        ∃ no topts,
          (w.LoadOptions FLAGS.configuration_directory FLAGS.configuration_basename).value
            = some (no, topts)
          ∧ o = no.map_builder_options)
    ∧ (w.LoadOptions FLAGS.configuration_directory FLAGS.configuration_basename
          = LoadOptions_failure →
        (Run FLAGS w).trace
          = [Event.tf_buffer kTfBufferCacheTimeInSeconds, Event.TransformListener,
              Event.LoadOptions FLAGS.configuration_directory FLAGS.configuration_basename,
              Event.Fatal Failure.ConfigurationError]
        ∧ (main FLAGS w).trace.all (fun e => !e.isCreateMapBuilder && !e.onNode) = true
        ∧ (main FLAGS w).status = ExitStatus.aborted
        ∧ (main FLAGS w).status ≠ ExitStatus.exited 0) := by
  obtain ⟨no, topts, mb, rest, hs, -, hlink⟩ := Run_calls FLAGS w
  refine ⟨?_, ?_, ?_, ?_⟩
  · intro e he hp
    have hc := mem_calls e _ he ((isCall_of e).1 hp)
    have hm : e ∈ script FLAGS no topts mb := by
      rw [← hs]; exact List.mem_append_left _ hc
    exact (script_mem FLAGS no topts mb e hm).1 hp
  · have h := (script_order FLAGS no topts mb).2.2.2.2.1
    rw [← hs] at h
    exact before_all_of_append _ _ _ _ h
  · intro o ho
    have hc := mem_calls _ _ ho (rfl : (Event.CreateMapBuilder o).isCall = true)
    rcases hlink with hl | hl
    · refine ⟨no, topts, hl, ?_⟩
      have hm : Event.CreateMapBuilder o ∈ script FLAGS no topts mb := by
        rw [← hs]; exact List.mem_append_left _ hc
      have := (script_mem FLAGS no topts mb _ hm).2.1 rfl
      injection this
    · rw [hl] at hc
      simp at hc
  · intro hfail
    have hr : (Run FLAGS w).trace
          = [Event.tf_buffer kTfBufferCacheTimeInSeconds, Event.TransformListener,
              Event.LoadOptions FLAGS.configuration_directory FLAGS.configuration_basename,
              Event.Fatal Failure.ConfigurationError]
        ∧ (Run FLAGS w).value = none := by
      simp [Run_eq, hfail, LoadOptions_failure, Proc.trace_bind, Proc.value_bind, step,
        LoadOptions, call, Outcome.log, Outcome.value]
    refine ⟨hr.1, ?_⟩
    cases hdir : FLAGS.configuration_directory.isEmpty
    · cases hbase : FLAGS.configuration_basename.isEmpty
      · obtain ⟨hm, hst⟩ := main_entered FLAGS w hdir hbase
        rw [hm, hst, hr.1, hr.2]
        simp [main_entry, Event.isCreateMapBuilder, Event.onNode, Event.isNode,
          Event.isLifecycleOp, Event.isLoadState, Event.isStartTrajectory, Event.isShutdownOp,
          Event.isFinishAllTrajectories, Event.isRunFinalOptimization, Event.isSerializeState]
      · simp [main, main_body, CHECK, hdir, hbase, Proc.trace_bind, Proc.value_bind, step,
          Event.isCreateMapBuilder, Event.onNode, Event.isNode,
          Event.isLifecycleOp, Event.isLoadState, Event.isStartTrajectory, Event.isShutdownOp,
          Event.isFinishAllTrajectories, Event.isRunFinalOptimization, Event.isSerializeState]
    · simp [main, main_body, CHECK, hdir, Proc.trace_bind, Proc.value_bind, step,
        Event.isCreateMapBuilder, Event.onNode, Event.isNode,
        Event.isLifecycleOp, Event.isLoadState, Event.isStartTrajectory, Event.isShutdownOp,
        Event.isFinishAllTrajectories, Event.isRunFinalOptimization, Event.isSerializeState]

/-- Claim C7 at a concrete run: the configuration cannot be loaded. -/
theorem C7_witness :
    world_bad_configuration.LoadOptions flags_save.configuration_directory
        flags_save.configuration_basename = LoadOptions_failure
    ∧ (Run flags_save world_bad_configuration).trace
        = [Event.tf_buffer 10, Event.TransformListener,
            Event.LoadOptions "cfg" "backpack_2d.lua", Event.Fatal Failure.ConfigurationError]
    ∧ (main flags_save world_bad_configuration).status = ExitStatus.aborted :=
  ⟨rfl, ((C7_configuration_failure_aborts flags_save world_bad_configuration).2.2.2 rfl).1,
    ((C7_configuration_failure_aborts flags_save world_bad_configuration).2.2.2 rfl).2.2.1⟩

/-- When every collaborator hands control back, `Run` returns, and with a save
path its trace ends in the SerializeState call and what that call logged. -/
theorem Run_returns (FLAGS : Flags) (w : World) (hw : w.Returns) :
    (Run FLAGS w).value = some ()
    ∧ (FLAGS.save_state_filename.isEmpty = false →
        ∃ pre, (Run FLAGS w).trace
          = pre ++ Event.SerializeState FLAGS.save_state_filename true
            :: (w.SerializeState FLAGS.save_state_filename true).log) := by
  obtain ⟨h1, h2, h3, h4, h5, h6, h7, h8, h9⟩ := hw
  obtain ⟨⟨no, topts⟩, h1⟩ := h1 FLAGS.configuration_directory FLAGS.configuration_basename
  obtain ⟨mb, h2⟩ := h2 no.map_builder_options
  obtain ⟨hc, hv⟩ := Run_constructed FLAGS w no topts mb h1 h2 (h3 _ _ _)
  obtain ⟨pre, ht⟩ := Run_constructed_trace FLAGS w no topts mb h1 h2 (h3 _ _ _)
  have hspin : (Run_from_spin FLAGS w).value = some ()
      ∧ (FLAGS.save_state_filename.isEmpty = false →
        ∃ pre, (Run_from_spin FLAGS w).trace
          = pre ++ Event.SerializeState FLAGS.save_state_filename true
            :: (w.SerializeState FLAGS.save_state_filename true).log) := by
    refine ⟨?_, ?_⟩
    · cases hs : FLAGS.save_state_filename.isEmpty <;>
      simp [Run_from_spin, Proc.value_bind, Proc.value_unit, ros.spin,
        Node.FinishAllTrajectories, Node.RunFinalOptimization, Node.SerializeState, call,
        h6, h7, h8, h9, hs]
    · intro hs
      refine ⟨Event.spin :: (w.spin.log ++ Event.FinishAllTrajectories ::
        (w.FinishAllTrajectories.log ++ Event.RunFinalOptimization ::
          w.RunFinalOptimization.log)), ?_⟩
      simp [Run_from_spin, Proc.trace_bind, Proc.value_bind, ros.spin,
        Node.FinishAllTrajectories, Node.RunFinalOptimization, Node.SerializeState, call,
        h6, h7, h8, hs]
  have hstart : (Run_from_start FLAGS w topts).value = some ()
      ∧ ∃ pre, (Run_from_start FLAGS w topts).trace = pre ++ (Run_from_spin FLAGS w).trace := by
    cases hs : FLAGS.start_trajectory_with_default_topics
    · refine ⟨?_, [], ?_⟩ <;>
      simp [Run_from_start, hs, Proc.trace_bind, Proc.value_bind, Proc.trace_unit,
        Proc.value_unit, hspin.1]
    · refine ⟨?_, Event.StartTrajectoryWithDefaultTopics topts ::
        (w.StartTrajectoryWithDefaultTopics topts).log, ?_⟩ <;>
      simp [Run_from_start, hs, Proc.trace_bind, Proc.value_bind,
        Node.StartTrajectoryWithDefaultTopics, call, h5, hspin.1]
  have hload : (Run_from_load FLAGS w topts).value = some ()
      ∧ ∃ pre, (Run_from_load FLAGS w topts).trace = pre ++ (Run_from_start FLAGS w topts).trace := by
    cases hs : FLAGS.load_state_filename.isEmpty
    · refine ⟨?_, Event.LoadState FLAGS.load_state_filename FLAGS.load_frozen_state ::
        (w.LoadState FLAGS.load_state_filename FLAGS.load_frozen_state).log, ?_⟩ <;>
      simp [Run_from_load, hs, Proc.trace_bind, Proc.value_bind, Node.LoadState, call, h4,
        hstart.1]
    · refine ⟨?_, [], ?_⟩ <;>
      simp [Run_from_load, hs, Proc.trace_bind, Proc.value_bind, Proc.trace_unit,
        Proc.value_unit, hstart.1]
  refine ⟨by rw [hv]; exact hload.1, ?_⟩
  intro hs
  obtain ⟨p1, e1⟩ := hspin.2 hs
  obtain ⟨p2, e2⟩ := hstart.2
  obtain ⟨p3, e3⟩ := hload.2
  refine ⟨pre ++ (p3 ++ (p2 ++ p1)), ?_⟩
  rw [ht, e3, e2, e1]
  simp [List.append_assoc]

/-- Claim C8: if a save path is supplied and SerializeState fails (a
`StateSaveError`, which the callee logs before it returns), while every
other call hands control back, the failure is in the trace, `Run` returns,
`main` reaches `ros::shutdown`, and the exit code is 0: the same as when the
save succeeds and as when no save path is supplied. -/
theorem C8_state_save_failure_exits_cleanly (FLAGS : Flags) (w : World)
    (hdir : FLAGS.configuration_directory.isEmpty = false)
    (hbase : FLAGS.configuration_basename.isEmpty = false)
    (hsave : FLAGS.save_state_filename.isEmpty = false)
    (hw : w.Returns)
    (hfail : w.SerializeState FLAGS.save_state_filename true = SerializeState_failure) :
    Event.Reported Failure.StateSaveError ∈ (main FLAGS w).trace
    ∧ (Run FLAGS w).value = some ()
    ∧ (main FLAGS w).trace.getLast? = some Event.ros_shutdown
    ∧ (main FLAGS w).status = ExitStatus.exited 0
    ∧ (∀ w2 : World, w2.NoFailure → (main FLAGS w2).status = (main FLAGS w).status)
    ∧ (∀ FLAGS2 : Flags, FLAGS2.configuration_directory.isEmpty = false →
        FLAGS2.configuration_basename.isEmpty = false →
        FLAGS2.save_state_filename.isEmpty = true →
        (main FLAGS2 w).status = (main FLAGS w).status) := by
  obtain ⟨hv, ht⟩ := Run_returns FLAGS w hw
  obtain ⟨pre, ht⟩ := ht hsave
  obtain ⟨hm, hs⟩ := main_entered FLAGS w hdir hbase
  rw [hv] at hm hs
  have hst : (main FLAGS w).status = ExitStatus.exited 0 := by rw [hs]; rfl
  refine ⟨?_, hv, ?_, hst, ?_, ?_⟩
  · rw [hm, ht, hfail]
    simp [SerializeState_failure, Outcome.log]
  · rw [hm]
    simp [List.getLast?_append]
  · intro w2 hw2
    obtain ⟨⟨no, topts⟩, h1⟩ := hw2.1 FLAGS.configuration_directory FLAGS.configuration_basename
    obtain ⟨mb, h2⟩ := hw2.2.1 no.map_builder_options
    have hv2 := (Run_noFailure FLAGS w2 no topts mb hw2 h1 h2).2
    rw [hst, (main_entered FLAGS w2 hdir hbase).2, hv2]
    rfl
  · intro FLAGS2 hd2 hb2 _
    rw [hst, (main_entered FLAGS2 w hd2 hb2).2, (Run_returns FLAGS2 w hw).1]
    rfl

/-- The collaborators of `world_bad_save` all hand control back. -/
theorem world_bad_save_returns : world_bad_save.Returns :=
  ⟨fun _ _ => ⟨_, rfl⟩, fun _ => ⟨_, rfl⟩, fun _ _ _ => rfl, fun _ _ => rfl, fun _ => rfl,
    rfl, rfl, rfl, fun _ _ => rfl⟩

/-- Claim C8 at a concrete run: the state cannot be written to
`out.pbstream`. -/
theorem C8_witness :
    flags_save.save_state_filename.isEmpty = false
    ∧ world_bad_save.Returns
    ∧ world_bad_save.SerializeState flags_save.save_state_filename true
      = SerializeState_failure
    ∧ Event.Reported Failure.StateSaveError ∈ (main flags_save world_bad_save).trace
    ∧ (main flags_save world_bad_save).status = ExitStatus.exited 0 :=
  ⟨by decide, world_bad_save_returns, rfl,
    (C8_state_save_failure_exits_cleanly flags_save world_bad_save (by decide) (by decide)
      (by decide) world_bad_save_returns rfl).1,
    (C8_state_save_failure_exits_cleanly flags_save world_bad_save (by decide) (by decide)
      (by decide) world_bad_save_returns rfl).2.2.2.1⟩

/-! ## The guarded calls before the wait -/

theorem from_spin_shape (FLAGS : Flags) (w : World) :
    ∃ more, calls (Run_from_spin FLAGS w).trace = Event.spin :: more
      ∧ more.filter Event.isStartTrajectory = []
      ∧ more.filter Event.isLoadState = [] := by
  obtain ⟨rest, h, -⟩ := from_spin_calls FLAGS w
  have hs : ∃ more, calls (Run_from_spin FLAGS w).trace = Event.spin :: more := by
    simp [Run_from_spin, Proc.trace_bind, ros.spin, call, calls_cons, Event.isCall]
  obtain ⟨more, hm⟩ := hs
  rw [hm] at h
  have hf : ∀ p : Event → Bool, p Event.spin = false →
      (script_from_spin FLAGS).filter p = [] → more.filter p = [] := by
    intro p hp hsf
    have := filter_nil_of_append p _ _ _ h hsf
    simpa [List.filter_cons, hp] using this
  refine ⟨more, hm, hf _ rfl ?_, hf _ rfl ?_⟩ <;>
  · unfold script_from_spin
    cases FLAGS.save_state_filename.isEmpty <;>
    simp [List.filter_cons, Event.isStartTrajectory, Event.isLoadState]

theorem from_start_shape (FLAGS : Flags) (w : World) (topts : TrajectoryOptions) :
    (calls (Run_from_start FLAGS w topts).trace).filter Event.isLoadState = []
    ∧ (FLAGS.start_trajectory_with_default_topics = true →
        (w.StartTrajectoryWithDefaultTopics topts).value = some () →
        calls (Run_from_start FLAGS w topts).trace
          = Event.StartTrajectoryWithDefaultTopics topts
            :: calls (Run_from_spin FLAGS w).trace) := by
  refine ⟨?_, ?_⟩
  · obtain ⟨rest, h, -⟩ := from_start_calls FLAGS w topts
    apply filter_nil_of_append _ _ _ _ h
    unfold script_from_start script_from_spin
    cases FLAGS.start_trajectory_with_default_topics <;>
    cases FLAGS.save_state_filename.isEmpty <;>
    simp [List.filter_cons, Event.isLoadState]
  · intro hs hv
    simp [Run_from_start, hs, hv, Proc.trace_bind, Proc.value_bind,
      Node.StartTrajectoryWithDefaultTopics, call, calls_append, calls_cons, calls_log,
      Event.isCall]

theorem from_load_shape (FLAGS : Flags) (w : World) (topts : TrajectoryOptions) :
    ∃ more, calls (Run_from_load FLAGS w topts).trace
        = (if !FLAGS.load_state_filename.isEmpty then
            [Event.LoadState FLAGS.load_state_filename FLAGS.load_frozen_state] else []) ++ more
      ∧ more.filter Event.isLoadState = []
      ∧ (FLAGS.load_state_filename.isEmpty = true →
          more = calls (Run_from_start FLAGS w topts).trace) := by
  have hn := (from_start_shape FLAGS w topts).1
  cases hs : FLAGS.load_state_filename.isEmpty
  · rcases h5 : (w.LoadState FLAGS.load_state_filename FLAGS.load_frozen_state).value
      with _ | _
    · refine ⟨[], ?_, rfl, by simp⟩
      simp [Run_from_load, hs, h5, Proc.trace_bind, Proc.value_bind, Node.LoadState, call,
        calls_append, calls_cons, calls_log, Event.isCall, calls_nil]
    · refine ⟨calls (Run_from_start FLAGS w topts).trace, ?_, hn, by simp⟩
      simp [Run_from_load, hs, h5, Proc.trace_bind, Proc.value_bind, Node.LoadState, call,
        calls_append, calls_cons, calls_log, Event.isCall, calls_nil]
  · refine ⟨calls (Run_from_start FLAGS w topts).trace, ?_, hn, fun _ => rfl⟩
    simp [Run_from_load, hs, Proc.trace_bind, Proc.value_bind, Proc.trace_unit,
      Proc.value_unit]

/-- Claim C3: `Run` calls LoadState only if `load_state_filename` is
non-empty, at most once, with that filename and the value of
`load_frozen_state` as arguments, never before the Node constructor and never
after a StartTrajectory call; and once the Node is constructed it does call
it if the filename is non-empty, everything called before it being the
construction (the transform buffer and listener, LoadOptions,
CreateMapBuilder, the Node constructor). -/
theorem C3_load_state_call (FLAGS : Flags) (w : World) :
    (∀ e ∈ (Run FLAGS w).trace, e.isLoadState = true →
      FLAGS.load_state_filename.isEmpty = false
      ∧ e = Event.LoadState FLAGS.load_state_filename FLAGS.load_frozen_state)
    ∧ (Run FLAGS w).trace.countP Event.isLoadState ≤ 1
    ∧ (before Event.isNode (calls (Run FLAGS w).trace)).all (fun e => !e.isLoadState) = true
    ∧ (after Event.isStartTrajectory (calls (Run FLAGS w).trace)).all
        (fun e => !e.isLoadState) = true
    ∧ (∀ (no : NodeOptions) (topts : TrajectoryOptions) (mb : MapBuilder),
      (w.LoadOptions FLAGS.configuration_directory FLAGS.configuration_basename).value
        = some (no, topts) →
      (w.CreateMapBuilder no.map_builder_options).value = some mb →
      (w.Node no mb FLAGS.collect_metrics).value = some () →
      (calls (Run FLAGS w).trace).filter Event.isLoadState
        = (if !FLAGS.load_state_filename.isEmpty then
            [Event.LoadState FLAGS.load_state_filename FLAGS.load_frozen_state] else [])
      ∧ (FLAGS.load_state_filename.isEmpty = false →
          before Event.isLoadState (calls (Run FLAGS w).trace)
            = [Event.tf_buffer kTfBufferCacheTimeInSeconds, Event.TransformListener,
                Event.LoadOptions FLAGS.configuration_directory FLAGS.configuration_basename,
                Event.CreateMapBuilder no.map_builder_options,
                Event.Node no mb FLAGS.collect_metrics])) := by
  refine ⟨?_, ?_, ?_, ?_, ?_⟩
  · intro e he hp
    obtain ⟨no, topts, mb, rest, hs, -, -⟩ := Run_calls FLAGS w
    have hc := mem_calls e _ he ((isCall_of e).2.2.2.1 hp)
    have hm : e ∈ script FLAGS no topts mb := by
      rw [← hs]; exact List.mem_append_left _ hc
    exact (script_mem FLAGS no topts mb e hm).2.2.2.1 hp
  · exact Run_countP_le FLAGS w _ (fun e => (isCall_of e).2.2.2.1)
      (fun a b c => (script_countP FLAGS a b c).2.2.1)
  · obtain ⟨no, topts, mb, rest, hs, -, -⟩ := Run_calls FLAGS w
    have h := (script_order FLAGS no topts mb).2.2.2.2.2.1
    rw [← hs] at h
    exact before_all_of_append _ _ _ _ h
  · obtain ⟨no, topts, mb, rest, hs, -, -⟩ := Run_calls FLAGS w
    have h := (script_order FLAGS no topts mb).2.2.2.2.2.2
    rw [← hs] at h
    exact after_all_of_append _ _ _ _ h
  · intro no topts mb h1 h2 h3
    obtain ⟨hc, -⟩ := Run_constructed FLAGS w no topts mb h1 h2 h3
    obtain ⟨more, hm, hf, -⟩ := from_load_shape FLAGS w topts
    rw [hc, hm]
    cases hs : FLAGS.load_state_filename.isEmpty <;>
    simp [script_construction, before, List.filter_cons, List.takeWhile_cons,
      Event.isLoadState, hf]

/-- Claim C3 at two concrete runs: with `--load_state_filename=in.pbstream` the
one LoadState call is `LoadState("in.pbstream", true)`; without the flag there
is none. -/
theorem C3_witness :
    (calls (Run flags_load world_ok).trace).filter Event.isLoadState
      = [Event.LoadState "in.pbstream" true]
    ∧ (calls (Run flags_save world_ok).trace).filter Event.isLoadState = [] :=
  ⟨((C3_load_state_call flags_load world_ok).2.2.2.2 ⟨⟨1⟩, 2⟩ ⟨3⟩ ⟨11⟩ rfl rfl rfl).1,
    ((C3_load_state_call flags_save world_ok).2.2.2.2 ⟨⟨1⟩, 2⟩ ⟨3⟩ ⟨11⟩ rfl rfl rfl).1⟩

/-- Claim C4: with a valid configuration (the loader returns `(no, topts)`,
the engine and the Node are constructed), no prior-state path and auto-start
enabled, a StartTrajectory call that succeeds is the one call `Run` issues
between the construction and the wait, its argument is the loader's
TrajectoryOptions, `Run` enters the wait, and the Node Controller of the
specification then has exactly one active trajectory.  Whatever the flags and
the collaborators, a StartTrajectory call carries the TrajectoryOptions the
loader returned; with auto-start disabled `Run` issues no StartTrajectory call
at all. -/
theorem C4_auto_start (FLAGS : Flags) (w : World) :
    (∀ (no : NodeOptions) (topts : TrajectoryOptions) (mb : MapBuilder),
      (w.LoadOptions FLAGS.configuration_directory FLAGS.configuration_basename).value
        = some (no, topts) →
      (w.CreateMapBuilder no.map_builder_options).value = some mb →
      (w.Node no mb FLAGS.collect_metrics).value = some () →
      FLAGS.load_state_filename.isEmpty = true →
      FLAGS.start_trajectory_with_default_topics = true →
      w.StartTrajectoryWithDefaultTopics topts = Outcome.returns () →
      before Event.isSpin (calls (Run FLAGS w).trace)
        = [Event.tf_buffer kTfBufferCacheTimeInSeconds, Event.TransformListener,
            Event.LoadOptions FLAGS.configuration_directory FLAGS.configuration_basename,
            Event.CreateMapBuilder no.map_builder_options,
            Event.Node no mb FLAGS.collect_metrics,
            Event.StartTrajectoryWithDefaultTopics topts]
      ∧ (calls (Run FLAGS w).trace).filter Event.isStartTrajectory
        = [Event.StartTrajectoryWithDefaultTopics topts]
      ∧ Event.spin ∈ (Run FLAGS w).trace
      ∧ ∃ nc, NodeController.unconstructed.run
            (nodeOps (before Event.isSpin (calls (Run FLAGS w).trace))) = .ok nc
          ∧ nc.TrajectoriesActive.length = 1)
    ∧ (∀ o, Event.StartTrajectoryWithDefaultTopics o ∈ (Run FLAGS w).trace →
        ∃ no, (w.LoadOptions FLAGS.configuration_directory
          FLAGS.configuration_basename).value = some (no, o))
    ∧ (FLAGS.start_trajectory_with_default_topics = false →
        ∀ e ∈ (Run FLAGS w).trace, e.isStartTrajectory = false) := by
  refine ⟨?_, ?_, ?_⟩
  · intro no topts mb h1 h2 h3 hl hs hst
    obtain ⟨hc, -⟩ := Run_constructed FLAGS w no topts mb h1 h2 h3
    obtain ⟨more, hm, -, hmore⟩ := from_load_shape FLAGS w topts
    have hv : (w.StartTrajectoryWithDefaultTopics topts).value = some () := by
      rw [hst]; rfl
    have h5 := (from_start_shape FLAGS w topts).2 hs hv
    obtain ⟨tail, ht, hts, -⟩ := from_spin_shape FLAGS w
    have hcalls : calls (Run FLAGS w).trace
        = script_construction FLAGS no mb
          ++ Event.StartTrajectoryWithDefaultTopics topts :: Event.spin :: tail := by
      rw [hc, hm, hmore hl, h5, ht]
      simp [hl]
    have hb : before Event.isSpin (calls (Run FLAGS w).trace)
        = [Event.tf_buffer kTfBufferCacheTimeInSeconds, Event.TransformListener,
            Event.LoadOptions FLAGS.configuration_directory FLAGS.configuration_basename,
            Event.CreateMapBuilder no.map_builder_options,
            Event.Node no mb FLAGS.collect_metrics,
            Event.StartTrajectoryWithDefaultTopics topts] := by
      rw [hcalls]
      simp [script_construction, before, List.takeWhile_cons, Event.isSpin]
    refine ⟨hb, ?_, ?_, ?_⟩
    · rw [hcalls]
      simp [script_construction, List.filter_cons, Event.isStartTrajectory, hts]
    · have : Event.spin ∈ calls (Run FLAGS w).trace := by
        rw [hcalls]; simp
      exact (List.mem_filter.mp this).1
    · rw [hb]
      exact ⟨⟨Phase.TrajectoriesActive, [0], 1⟩, rfl, rfl⟩
  · intro o ho
    obtain ⟨no, topts, mb, rest, hs, -, hlink⟩ := Run_calls FLAGS w
    have hc := mem_calls _ _ ho (rfl : (Event.StartTrajectoryWithDefaultTopics o).isCall = true)
    rcases hlink with hl | hl
    · have hm : Event.StartTrajectoryWithDefaultTopics o ∈ script FLAGS no topts mb := by
        rw [← hs]; exact List.mem_append_left _ hc
      have := ((script_mem FLAGS no topts mb _ hm).2.2.2.2.1 rfl).2
      injection this with ht
      exact ⟨no, by rw [ht]; exact hl⟩
    · rw [hl] at hc
      simp at hc
  · intro hs e he
    cases hp : e.isStartTrajectory
    · rfl
    · obtain ⟨no, topts, mb, rest, hsc, -, -⟩ := Run_calls FLAGS w
      have hc := mem_calls e _ he ((isCall_of e).2.2.2.2.1 hp)
      have hm : e ∈ script FLAGS no topts mb := by
        rw [← hsc]; exact List.mem_append_left _ hc
      have := ((script_mem FLAGS no topts mb e hm).2.2.2.2.1 hp).1
      rw [hs] at this
      cases this

/-- Claim C4 at two concrete runs: with the default auto-start the one
StartTrajectory call carries the loaded options; with
`--start_trajectory_with_default_topics=false` there is none. -/
theorem C4_witness :
    (calls (Run flags_save world_ok).trace).filter Event.isStartTrajectory
      = [Event.StartTrajectoryWithDefaultTopics ⟨3⟩]
    ∧ (∃ nc, NodeController.unconstructed.run
          (nodeOps (before Event.isSpin (calls (Run flags_save world_ok).trace))) = .ok nc
        ∧ nc.TrajectoriesActive.length = 1)
    ∧ ∀ e ∈ (Run flags_idle world_ok).trace, e.isStartTrajectory = false :=
  ⟨((C4_auto_start flags_save world_ok).1 ⟨⟨1⟩, 2⟩ ⟨3⟩ ⟨11⟩ rfl rfl rfl (by decide) rfl rfl).2.1,
    ((C4_auto_start flags_save world_ok).1 ⟨⟨1⟩, 2⟩ ⟨3⟩ ⟨11⟩ rfl rfl rfl (by decide) rfl
      rfl).2.2.2,
    (C4_auto_start flags_idle world_ok).2.2 rfl⟩


end cartographer_ros
